import Mathlib

/-!
Verification of the transaction-classification / double-entry ledger core of
the `etl` repository (`finance_app.agents.ledger.transaction_classifier`,
`finance_app.agents.ledger.ledger_builder`,
`finance_app.agents.ledger.account_matcher`,
`finance_app.agents.data_curation.deduplication`).

The Python sources are embedded shallowly:

* `Decimal` dollar amounts become integer *cents* in `ℤ` (every monetary
  constant of the source is an exact multiple of `$0.01`: the `$0.01`
  balance tolerance is `1`, the matcher's `$1` near-match window is `100`,
  the deduplication amount tolerance `$0.50` is `50`), so all arithmetic is
  exact and kernel-executable;
* the matcher's and deduplicator's additive confidence scores become
  integer *tenths* (weights `0.4/0.3/0.2/0.1` are `4/3/2/1`, the `0.6`
  acceptance threshold is `6`, the `0.8` dedup threshold is `8`, and the
  fuzzy confidences `0.9/0.7/0.5` are `9/7/5`) — again every constant of
  the source is an exact multiple of `0.1`;
* calendar dates become day numbers in `ℤ`;
* Python string operations (`lower`, `strip`, `split`, substring `in`) are
  reimplemented exactly on `List Char`;
* fallible code returns `Except`/`Option`;
* hash functions (MD5) are modelled as injective, i.e. as the identity on
  the hashed text: hash equality is text equality, which is the semantics
  of the source modulo hash collisions.
-/

namespace Etl

/-! ## Python string primitives -/

/-- ASCII lowercasing of one character, as Python `str.lower` acts on the
ASCII text handled by this code base. -/
def charLower (c : Char) : Char :=
  if 'A' ≤ c ∧ c ≤ 'Z' then Char.ofNat (c.toNat + 32) else c

/-- Python `s.lower()`. -/
def pyLower (s : String) : String :=
  ⟨s.data.map charLower⟩

/-- Predicate `listStartsWith pat l`: true when `pat` is an initial segment of `l`. -/
def listStartsWith : List Char → List Char → Bool
  | [], _ => true
  | _ :: _, [] => false
  | p :: ps, c :: cs => p == c && listStartsWith ps cs

/-- Split a character list at the first occurrence of `pat`, returning the
part before and the part after the occurrence. -/
def breakOn (pat : List Char) : List Char → Option (List Char × List Char)
  | [] => if pat.isEmpty then some ([], []) else none
  | c :: cs =>
    if listStartsWith pat (c :: cs) then some ([], (c :: cs).drop pat.length)
    else
      match breakOn pat cs with
      | some (pre, post) => some (c :: pre, post)
      | none => none

/-- Python substring test `pat in hay`. -/
def pyContains (hay pat : String) : Bool :=
  (breakOn pat.data hay.data).isSome

/-- Python `s.split(pat, 1)`. -/
def pySplit1 (s pat : String) : List String :=
  match breakOn pat.data s.data with
  | some (pre, post) => [⟨pre⟩, ⟨post⟩]
  | none => [s]

/-- Python `s.split(pat)[0]`: the part before the first occurrence of `pat`
(the whole string when `pat` does not occur). -/
def pyHeadSplit (s pat : String) : String :=
  match breakOn pat.data s.data with
  | some (pre, _) => ⟨pre⟩
  | none => s

/-- Fuel-driven helper for `pyTailSplit`; the fuel always suffices because
each step strictly shortens the list when the pattern is non-empty. -/
def afterLastAux (pat : List Char) : Nat → List Char → List Char
  | 0, s => s
  | fuel + 1, s =>
    match breakOn pat s with
    | some (_, post) => afterLastAux pat fuel post
    | none => s

/-- Python `s.split(pat)[-1]` for a non-empty `pat`: the part after the last
occurrence of `pat` (the whole string when `pat` does not occur). -/
def pyTailSplit (s pat : String) : String :=
  ⟨afterLastAux pat.data (s.data.length + 1) s.data⟩

/-- The characters Python `str.split()` and `str.strip()` treat as
whitespace. -/
def isPyWS (c : Char) : Bool :=
  c == ' ' || c == '\t' || c == '\n' || c == '\r' || c == '\x0b' || c == '\x0c'

/-- Drop leading whitespace characters. -/
def dropLeadingWS : List Char → List Char
  | [] => []
  | c :: cs => if isPyWS c then dropLeadingWS cs else c :: cs

/-- Python `s.strip()`. -/
def pyStrip (s : String) : String :=
  ⟨((dropLeadingWS s.data).reverse |> dropLeadingWS).reverse⟩

/-- Helper for `pySplitWS`: whitespace-run splitting with an accumulator for
the current (reversed) word. -/
def splitWSAux : List Char → List Char → List (List Char)
  | [], acc => if acc.isEmpty then [] else [acc.reverse]
  | c :: cs, acc =>
    if isPyWS c then
      if acc.isEmpty then splitWSAux cs [] else acc.reverse :: splitWSAux cs []
    else splitWSAux cs (c :: acc)

/-- Python `s.split()`: split on whitespace runs, dropping empty parts. -/
def pySplitWS (s : String) : List String :=
  (splitWSAux s.data []).map fun l => ⟨l⟩

/-- Python `" ".join(s.split())`: collapse internal whitespace. -/
def collapseWS (s : String) : String :=
  String.intercalate " " (pySplitWS s)

/-- Python `x if x else dflt` for an optional string (`None` and `""` are
falsy). -/
def pyOrStr (o : Option String) (dflt : String) : String :=
  match o with
  | some s => if s == "" then dflt else s
  | none => dflt

/-- Python `abs()`, as an executable definition mirroring the source's
`abs(...)` calls. -/
def pyAbs (q : ℤ) : ℤ :=
  if q < 0 then -q else q

/-- Lemma: `pyAbs` agrees with the absolute value. -/
theorem pyAbs_eq_abs (q : ℤ) : pyAbs q = |q| := by
  unfold pyAbs
  split
  · next h => rw [abs_of_neg h]
  · next h => rw [abs_of_nonneg (le_of_not_lt h)]

/-- Python truthiness of an optional string. -/
def optTruthy (o : Option String) : Bool :=
  match o with
  | some s => s != ""
  | none => false

/-! ## `transaction_classifier.py` -/

/-- Source `extract_transfer_accounts` (transaction_classifier.py): extract
`(source, target)` account descriptions from a transfer transaction.  Only
returns a pair when the category hint is `Transfers`/`Transfer`
(case-insensitively) and the description contains `from` or `to`. -/
def extract_transfer_accounts (original_description account_name : String)
    (category : Option String := none) : Option (String × String) :=
  match category with
  | some cat =>
    if cat != "" && (pyLower cat == "transfers" || pyLower cat == "transfer") then
      let desc_lower := pyLower original_description
      if pyContains desc_lower "from" then
        match pySplit1 desc_lower "from" with
        | _ :: rest :: _ =>
          let source_info := pyStrip rest
          let source_info := pyStrip (pyHeadSplit source_info "confirmation")
          let source_info := pyStrip (pyHeadSplit source_info "conf#")
          some (source_info, account_name)
        | _ => none
      else if pyContains desc_lower "to" then
        match pySplit1 desc_lower "to" with
        | _ :: rest :: _ =>
          let target_info := pyStrip rest
          let target_info := pyStrip (pyHeadSplit target_info "confirmation")
          let target_info := pyStrip (pyHeadSplit target_info "conf#")
          some (account_name, target_info)
        | _ => none
      else none
    else none
  | none => none

/-- The ordered `account_type_map` dictionary of
`map_account_identifier_to_name`. -/
def account_type_map : List (String × String) :=
  [("chk", "Checking"), ("checking", "Checking"), ("sav", "Savings"),
   ("savings", "Savings"), ("cd", "CD"), ("credit", "Credit Card"),
   ("cc", "Credit Card")]

/-- Source `map_account_identifier_to_name` (transaction_classifier.py). -/
def map_account_identifier_to_name (account_identifier institution : String) :
    Option String :=
  let identifier_lower := pyStrip (pyLower account_identifier)
  (account_type_map.find? fun p => pyContains identifier_lower p.1).map fun p =>
    if p.2 == "Savings" then institution ++ " - Bank - Regular Savings"
    else institution ++ " - Bank - " ++ p.2

/-- Investment keyword list of `classify_transaction_type`. -/
def investment_keywords : List String :=
  ["529", "ira", "401k", "401(k)", "contribution", "contrib",
   "mn dir", "mn dir ach", "direct ach", "investment contribution"]

/-- Liability keyword list of `classify_transaction_type`. -/
def liability_keywords : List String :=
  ["student loan", "student loans", "mortgage", "heloc",
   "loan payment", "loan pay", "us bank", "ford credit",
   "auto loan", "car loan", "vehicle loan"]

/-- Income keyword list of `classify_transaction_type`. -/
def income_keywords : List String :=
  ["salary", "payroll", "deposit", "interest earned", "dividend",
   "refund", "reimbursement"]

/-- Transfer keyword list of `classify_transaction_type`. -/
def transfer_keywords : List String :=
  ["transfer", "online transfer", "scheduled transfer",
   "ach transfer", "wire transfer"]

/-- The category-table part of `classify_transaction_type` (the body of its
`if category:` block); `none` models falling through the block without a
`return`. -/
def classifyFromCategory (description : String) (category : Option String) :
    Option String :=
  match category with
  | some cat =>
    if cat == "" then none
    else
      let cat_lower := pyLower cat
      if cat_lower == "transfers" || cat_lower == "transfer" then some "transfer"
      else if cat_lower == "credit card payments" || cat_lower == "credit card payment" ||
          cat_lower == "credit cards" then some "credit_card_payment"
      else
        let desc_lower_check := pyLower description
        if pyContains desc_lower_check "bill payment" then some "expense"
        else if cat_lower == "mortgages" || cat_lower == "mortgage" then
          some "liability_payment"
        else if cat_lower == "loans" || cat_lower == "loan" ||
            cat_lower == "student loan" || cat_lower == "student loans" then
          some "liability_payment"
        else if cat_lower == "savings" || cat_lower == "529" || cat_lower == "529k" ||
            cat_lower == "investment" || cat_lower == "investments" then
          some "investment_contribution"
        else none
  | none => none

/-- Source `classify_transaction_type` (transaction_classifier.py): deterministic,
rule-based classification of one transaction into a kind string. -/
def classify_transaction_type (description : String) (amount : ℤ)
    (account_type : String) (category : Option String := none)
    (original_description : Option String := none) : String :=
  let description_lower_precheck := pyLower description
  let orig_desc_lower_precheck := pyLower (original_description.getD "")
  if pyContains description_lower_precheck "bill payment" ||
      pyContains orig_desc_lower_precheck "bill payment" then "expense"
  else
    match classifyFromCategory description category with
    | some t => t
    | none =>
      let description_lower := pyLower description
      let orig_desc_lower := pyLower (original_description.getD "")
      if pyContains description_lower "bill payment" ||
          pyContains orig_desc_lower "bill payment" then "expense"
      else if investment_keywords.any
          (fun k => pyContains description_lower k || pyContains orig_desc_lower k) then
        "investment_contribution"
      else if liability_keywords.any
          (fun k => pyContains description_lower k || pyContains orig_desc_lower k) then
        "liability_payment"
      else if transfer_keywords.any
          (fun k => pyContains description_lower k || pyContains orig_desc_lower k) then
        "transfer"
      else if account_type == "credit_card" && amount < 0 then "expense"
      else if (account_type == "checking" || account_type == "savings") && amount > 0 then
        if income_keywords.any (fun k => pyContains description_lower k) then "income"
        else if transfer_keywords.any (fun k => pyContains description_lower k) then
          "transfer"
        else "income"
      else if (account_type == "checking" || account_type == "savings") && amount < 0 then
        if transfer_keywords.any
            (fun k => pyContains description_lower k || pyContains orig_desc_lower k) then
          "transfer"
        else if pyContains description_lower "bill payment" ||
            pyContains orig_desc_lower "bill payment" then "expense"
        else if pyContains description_lower "credit card" ||
            pyContains orig_desc_lower "credit card" ||
            (match category with
             | some c => c != "" && pyContains (pyLower c) "credit card"
             | none => false) then
          "credit_card_payment"
        else "expense"
      else "unknown"

/-- Source `map_account_to_ledger_account` (transaction_classifier.py): canonical
hierarchical ledger-account path for an account. -/
def map_account_to_ledger_account (_account_name account_type institution : String) :
    String :=
  let institution_clean : String :=
    ⟨institution.data.filter fun c => !(c == ' ' || c == '_')⟩
  if account_type == "checking" || account_type == "savings" || account_type == "cd" then
    let account_subtype :=
      if account_type == "checking" then "Checking"
      else if account_type == "savings" then "Savings"
      else "CDs"
    "Assets:" ++ institution_clean ++ ":" ++ account_subtype
  else if account_type == "credit_card" then
    "Liabilities:CreditCards:" ++ institution_clean
  else if account_type == "mortgage" || account_type == "heloc" then
    "Liabilities:" ++ (if account_type == "mortgage" then "Mortgage" else "HELOC") ++
      ":" ++ institution_clean
  else if account_type == "brokerage" || account_type == "ira_traditional" ||
      account_type == "ira_roth" || account_type == "ira_rollover" ||
      account_type == "401k" || account_type == "529" || account_type == "able" then
    let path :=
      if account_type == "brokerage" then "Investments:Brokerage"
      else if account_type == "ira_traditional" then "Investments:IRA:Traditional"
      else if account_type == "ira_roth" then "Investments:IRA:Roth"
      else if account_type == "ira_rollover" then "Investments:IRA:Rollover"
      else if account_type == "401k" then "Investments:401k"
      else if account_type == "529" then "Investments:529"
      else "Investments:ABLE"
    "Assets:" ++ path ++ ":" ++ institution_clean
  else
    "Assets:" ++ institution_clean ++ ":" ++ account_type

/-- The account-type inference chain of the nested `get_ledger_account`
helper inside `create_ledger_postings`. -/
def infer_account_type_from_name (acc_name : String) : String :=
  let l := pyLower acc_name
  if pyContains l "savings" && !pyContains l "checking" then "savings"
  else if pyContains l "checking" || (pyContains l "bank" && !pyContains l "savings") then
    "checking"
  else if pyContains l "credit" || pyContains l "card" then "credit_card"
  else if pyContains l "cd" then "cd"
  else if pyContains l "regular savings" then "savings"
  else if pyContains l "adv plus" || pyContains l "adv plus banking" then "checking"
  else "checking"

/-- The nested `get_ledger_account` helper of `create_ledger_postings`
(closure over `institution`). -/
def get_ledger_account (institution acc_name : String)
    (acc_type : Option String := none) : String :=
  let t :=
    match acc_type with
    | some t => if t == "" then infer_account_type_from_name acc_name else t
    | none => infer_account_type_from_name acc_name
  map_account_to_ledger_account acc_name t institution

/-- The `investment_account` local-variable computation of the
`investment_contribution` branch of `create_ledger_postings`. -/
def investment_account_for (description : String) (category : Option String)
    (institution : String) : String :=
  let desc_lower := pyLower description
  let catContains : String → Bool := fun k =>
    match category with
    | some c => c != "" && pyContains (pyLower c) k
    | none => false
  if pyContains desc_lower "529" || pyContains desc_lower "mn dir" ||
      catContains "529" then "Assets:Investments:529"
  else if pyContains desc_lower "ira" || catContains "ira" then
    "Assets:Investments:IRA:Traditional:" ++ institution
  else if pyContains desc_lower "401" || pyContains desc_lower "401k" ||
      catContains "401" then "Assets:Investments:401k:" ++ institution
  else if catContains "savings" || pyContains desc_lower "contrib" then
    "Assets:Investments:529"
  else "Assets:Investments:Other:" ++ institution

/-- The `liability_account` local-variable computation of the
`liability_payment` branch of `create_ledger_postings`. -/
def liability_account_for (description : String) (category : Option String)
    (institution : String) : String :=
  let desc_lower := pyLower description
  let cat_lower := pyLower (category.getD "")
  if pyContains cat_lower "mortgage" || pyContains cat_lower "mortgages" then
    "Liabilities:Mortgage"
  else if pyContains cat_lower "student loan" then "Liabilities:StudentLoans"
  else if pyContains cat_lower "auto loan" || pyContains cat_lower "car loan" ||
      pyContains cat_lower "vehicle loan" then "Liabilities:AutoLoan"
  else if pyContains cat_lower "heloc" then "Liabilities:HELOC:" ++ institution
  else if pyContains desc_lower "ford credit" then "Liabilities:AutoLoan"
  else if pyContains desc_lower "us bank" then "Liabilities:Mortgage"
  else if pyContains desc_lower "student loan" then "Liabilities:StudentLoans"
  else if pyContains desc_lower "mortgage" then "Liabilities:Mortgage"
  else if pyContains desc_lower "auto loan" || pyContains desc_lower "car loan" ||
      pyContains desc_lower "vehicle loan" then "Liabilities:AutoLoan"
  else if pyContains desc_lower "heloc" then "Liabilities:HELOC:" ++ institution
  else if pyContains cat_lower "loan" then "Liabilities:Loans"
  else if (match category with
           | some c => c != "" && (pyContains (pyLower c) "mortgage" ||
               pyContains c "Mortgage")
           | none => false) then "Liabilities:Mortgage"
  else "Liabilities:StudentLoans"

/-- Source `create_ledger_postings` (transaction_classifier.py): synthesize the
double-entry postings for one classified transaction. -/
def create_ledger_postings (account_name : String) (amount : ℤ)
    (transaction_type : String) (description : String)
    (_other_account : Option String := none) (category : Option String := none)
    (source_account_name : Option String := none)
    (target_account_name : Option String := none)
    (institution : String := "Unknown") : List (String × ℤ) :=
  if transaction_type == "transfer" && optTruthy source_account_name then
    let src := source_account_name.getD ""
    let target_account := pyOrStr target_account_name account_name
    let source_ledger := get_ledger_account institution src none
    let target_ledger := get_ledger_account institution target_account none
    [(source_ledger, -pyAbs amount), (target_ledger, pyAbs amount)]
  else if transaction_type == "investment_contribution" then
    let investment_account := investment_account_for description category institution
    let checking_ledger := get_ledger_account institution account_name (some "checking")
    [(checking_ledger, amount), (investment_account, -amount)]
  else if transaction_type == "liability_payment" then
    let liability_account := liability_account_for description category institution
    let checking_ledger := get_ledger_account institution account_name (some "checking")
    [(checking_ledger, amount), (liability_account, -amount)]
  else if transaction_type == "credit_card_payment" then
    let credit_card_ledger := get_ledger_account institution account_name (some "credit_card")
    let checking_ledger :=
      get_ledger_account institution (pyOrStr source_account_name account_name)
        (some "checking")
    [(checking_ledger, amount), (credit_card_ledger, -amount)]
  else if transaction_type == "expense" then
    let expense_account := "Expenses:" ++ pyOrStr category "Uncategorized"
    let asset_ledger := get_ledger_account institution account_name none
    [(asset_ledger, amount), (expense_account, -amount)]
  else if transaction_type == "income" then
    let income_account := "Income:" ++ pyOrStr category "Uncategorized"
    let asset_ledger := get_ledger_account institution account_name none
    [(income_account, -amount), (asset_ledger, amount)]
  else
    let account_ledger := get_ledger_account institution account_name none
    if amount < 0 then
      [(account_ledger, amount), ("Expenses:" ++ pyOrStr category "Unknown", -amount)]
    else
      [("Income:" ++ pyOrStr category "Unknown", -amount), (account_ledger, amount)]

/-- Helper: every posting list synthesized by `create_ledger_postings` has
exactly two postings. -/
theorem create_ledger_postings_length (account_name : String) (amount : ℤ)
    (transaction_type : String) (description : String)
    (other_account category source_account_name target_account_name : Option String)
    (institution : String) :
    (create_ledger_postings account_name amount transaction_type description
        other_account category source_account_name target_account_name
        institution).length = 2 := by
  unfold create_ledger_postings
  repeat' split
  all_goals rfl

/-- Helper: the two synthesized posting amounts cancel exactly. -/
theorem create_ledger_postings_sum (account_name : String) (amount : ℤ)
    (transaction_type : String) (description : String)
    (other_account category source_account_name target_account_name : Option String)
    (institution : String) :
    ((create_ledger_postings account_name amount transaction_type description
        other_account category source_account_name target_account_name
        institution).map Prod.snd).sum = 0 := by
  unfold create_ledger_postings
  repeat' split
  all_goals
    simp only [List.map_cons, List.map_nil, List.sum_cons, List.sum_nil]
    ring


/-- C1: for every normalized transaction record (account name, amount,
description, category, transfer-resolution arguments, institution) and every
classification kind — including `unknown` and kinds whose account resolution
falls through to defaults — `create_ledger_postings` returns exactly two
postings, and the two signed posting amounts sum to exactly zero. -/
theorem C1_create_ledger_postings_two_balanced (account_name : String)
    (amount : ℤ) (transaction_type : String) (description : String)
    (other_account category source_account_name target_account_name : Option String)
    (institution : String) :
    (create_ledger_postings account_name amount transaction_type description
        other_account category source_account_name target_account_name
        institution).length = 2 ∧
    ((create_ledger_postings account_name amount transaction_type description
        other_account category source_account_name target_account_name
        institution).map Prod.snd).sum = 0 :=
  ⟨create_ledger_postings_length account_name amount transaction_type description
      other_account category source_account_name target_account_name institution,
   create_ledger_postings_sum account_name amount transaction_type description
      other_account category source_account_name target_account_name institution⟩

/-- C3: whenever the description or the original description contains the
marker `bill payment` (case-insensitively), `classify_transaction_type`
returns `expense`, overriding any category hint — including a hint that says
credit-card payment. -/
theorem C3_bill_payment_marker_forces_expense (description : String) (amount : ℤ)
    (account_type : String) (category original_description : Option String)
    (h : pyContains (pyLower description) "bill payment" = true ∨
        pyContains (pyLower (original_description.getD "")) "bill payment" = true) :
    classify_transaction_type description amount account_type category
      original_description = "expense" := by
  unfold classify_transaction_type
  rcases h with h | h <;> simp [h]

/-- Witness for C3: the bill-pay-override scenario, with a category hint that
says credit-card payment. -/
theorem C3_bill_payment_marker_forces_expense_witness :
    (pyContains (pyLower "Bill Payment") "bill payment" = true ∨
      pyContains (pyLower ((none : Option String).getD "")) "bill payment" = true) ∧
    classify_transaction_type "Bill Payment" (-15000) "checking"
      (some "Credit Card Payments") none = "expense" :=
  ⟨Or.inl (by decide),
   C3_bill_payment_marker_forces_expense "Bill Payment" (-15000) "checking"
     (some "Credit Card Payments") none (Or.inl (by decide))⟩

/-- Counterexample to C8 as stated: for the record
`{description: "Bill Payment", category: "Credit Card Payments", amount: -150.00}`
the classification is `expense`, but the synthesized counter-posting lands in
`Expenses:Credit Card Payments` — the category-named bucket — and no posting
uses the account `Expenses:Uncategorized` claimed by the spec. -/
theorem C8_counterexample :
    classify_transaction_type "Bill Payment" (-15000) "checking"
      (some "Credit Card Payments") none = "expense" ∧
    create_ledger_postings "Bank of America - Bank - Checking" (-15000) "expense"
      "Bill Payment" none (some "Credit Card Payments") none none "BankOfAmerica" =
      [("Assets:BankOfAmerica:Checking", -15000),
       ("Expenses:Credit Card Payments", 15000)] ∧
    ∀ p ∈ create_ledger_postings "Bank of America - Bank - Checking" (-15000) "expense"
      "Bill Payment" none (some "Credit Card Payments") none none "BankOfAmerica",
      p.1 ≠ "Expenses:Uncategorized" := by
  refine ⟨by decide, by decide, ?_⟩
  decide

/-- C8 (amended): the record
`{description: "Bill Payment", category: "Credit Card Payments", amount: -150.00}`
classifies as `expense`, and the synthesized postings place the
counter-posting in `Expenses:Credit Card Payments` (the Expenses bucket named
by the category hint), not in any `Liabilities:CreditCards` account. -/
theorem C8_bill_pay_override_scenario :
    classify_transaction_type "Bill Payment" (-15000) "checking"
      (some "Credit Card Payments") none = "expense" ∧
    create_ledger_postings "Bank of America - Bank - Checking" (-15000) "expense"
      "Bill Payment" none (some "Credit Card Payments") none none "BankOfAmerica" =
      [("Assets:BankOfAmerica:Checking", -15000),
       ("Expenses:Credit Card Payments", 15000)] ∧
    ∀ p ∈ create_ledger_postings "Bank of America - Bank - Checking" (-15000) "expense"
      "Bill Payment" none (some "Credit Card Payments") none none "BankOfAmerica",
      listStartsWith "Liabilities:CreditCards".data p.1.data = false := by
  refine ⟨by decide, by decide, ?_⟩
  decide

/-! ## `ledger_builder.py` -/

/-- The metadata dictionary attached by `convert_transaction_to_ledger_entry`
(keys `source_file`, `account_name`, `category`, `transaction_type`). -/
structure EntryMeta where
  source_file : String
  account_name : String
  category : Option String
  transaction_type : String
deriving DecidableEq

/-- Structure `LedgerEntry` (ledger_builder.py): one dated, described, balanced
double-entry transaction. -/
structure LedgerEntry where
  date : ℤ
  description : String
  postings : List (String × ℤ)
  metadata : EntryMeta
deriving DecidableEq

instance : Inhabited LedgerEntry :=
  ⟨⟨0, "", [], ⟨"", "", none, ""⟩⟩⟩

/-- Source `LedgerEntry.__init__`: raises `ValueError` (modelled as `Except.error`)
when the postings fail to sum to zero within the `$0.01` tolerance. -/
def mkLedgerEntry (date : ℤ) (description : String)
    (postings : List (String × ℤ)) (metadata : EntryMeta) :
    Except String LedgerEntry :=
  if pyAbs ((postings.map Prod.snd).sum) > 1 then
    Except.error "Ledger entry does not balance"
  else
    Except.ok ⟨date, description, postings, metadata⟩

/-- Source `LedgerBuilder._infer_account_type`. -/
def infer_account_type (account_name source_file : String) : String :=
  let account_lower := pyLower account_name
  let file_lower := pyLower source_file
  if pyContains account_lower "credit card" ||
      pyContains account_lower "american express" then "credit_card"
  else if pyContains account_lower "checking" || pyContains account_lower "bank" then
    "checking"
  else if pyContains account_lower "savings" then "savings"
  else if pyContains account_lower "cd" then "cd"
  else if pyContains account_lower "mortgage" then "mortgage"
  else if pyContains account_lower "heloc" then "heloc"
  else if pyContains file_lower "american_express" then "credit_card"
  else if pyContains file_lower "checking" || pyContains file_lower "bank" then
    "checking"
  else if pyContains file_lower "savings" then "savings"
  else "checking"

/-- Source `LedgerBuilder._extract_institution` (the account-name tests are
case-sensitive in the source). -/
def extract_institution (account_name source_file : String) : String :=
  if pyContains account_name "Bank of America" then "BankOfAmerica"
  else if pyContains account_name "American Express" then "AmericanExpress"
  else if pyContains account_name "Chase" then "Chase"
  else
    let file_lower := pyLower source_file
    if pyContains file_lower "bank_of_america" || pyContains file_lower "boa" then
      "BankOfAmerica"
    else if pyContains file_lower "american_express" then "AmericanExpress"
    else if pyContains file_lower "chase" then "Chase"
    else "Unknown"

/-- Source `LedgerBuilder._map_transfer_source_to_account`. -/
def map_transfer_source_to_account (source_description institution : String) :
    String :=
  let mapped := map_account_identifier_to_name source_description institution
  if optTruthy mapped then mapped.getD ""
  else
    let desc_lower := pyLower source_description
    if pyContains desc_lower "chk" || pyContains desc_lower "checking" then
      institution ++ " - Bank - Checking"
    else if pyContains desc_lower "sav" || pyContains desc_lower "savings" then
      institution ++ " - Bank - Savings"
    else institution ++ " - Bank - Checking"

/-- One row of the combined processed-transactions dataframe, after the
column-searching and date/amount parsing at the top of
`convert_transaction_to_ledger_entry`: a field is `none` when no usable
column was found for it, and `description` is the first non-empty
description-like column (already stripped). -/
structure Tx where
  date : Option ℤ
  amount : Option ℤ
  account_name : Option String
  description : Option String
  category : Option String
  original_description : Option String
  source_file : String
deriving DecidableEq

/-- The transfer source/target account resolution block of
`convert_transaction_to_ledger_entry` (runs only for kind `transfer`). -/
def resolve_transfer_accounts (tx : Tx) (description account_name institution : String) :
    Option String × Option String :=
  match extract_transfer_accounts (pyOrStr tx.original_description description)
      account_name tx.category with
  | none => (none, none)
  | some (source_desc, target_desc) =>
    if (pySplitWS source_desc).length ≤ 3 &&
        (pyContains (pyLower source_desc) "chk" ||
         pyContains (pyLower source_desc) "sav" ||
         pyContains (pyLower source_desc) "cd") then
      (some (map_transfer_source_to_account source_desc institution),
       some target_desc)
    else
      let target :=
        if (pySplitWS target_desc).length ≤ 3 &&
            (pyContains (pyLower target_desc) "chk" ||
             pyContains (pyLower target_desc) "sav" ||
             pyContains (pyLower target_desc) "cd") then
          (map_account_identifier_to_name target_desc institution).getD target_desc
        else target_desc
      (some source_desc, some target)

/-- The `description` local of `convert_transaction_to_ledger_entry`: the
first non-empty description column, defaulting to `"Transaction"`. -/
def tx_description (tx : Tx) : String :=
  pyOrStr tx.description "Transaction"

/-- The `tx_type` local of `convert_transaction_to_ledger_entry`. -/
def tx_kind (tx : Tx) (amount : ℤ) (account_name : String) : String :=
  classify_transaction_type (tx_description tx) amount
    (infer_account_type account_name tx.source_file) tx.category
    tx.original_description

/-- The `source_account_name`/`target_account_name` locals of
`convert_transaction_to_ledger_entry`. -/
def tx_source_target (tx : Tx) (amount : ℤ) (account_name : String) :
    Option String × Option String :=
  if tx_kind tx amount account_name == "transfer" then
    resolve_transfer_accounts tx (tx_description tx) account_name
      (extract_institution account_name tx.source_file)
  else (none, none)

/-- The `postings` local of `convert_transaction_to_ledger_entry`. -/
def tx_postings (tx : Tx) (amount : ℤ) (account_name : String) :
    List (String × ℤ) :=
  create_ledger_postings account_name amount (tx_kind tx amount account_name)
    (tx_description tx) none tx.category
    (tx_source_target tx amount account_name).1
    (tx_source_target tx amount account_name).2
    (extract_institution account_name tx.source_file)

/-- Source `LedgerBuilder.convert_transaction_to_ledger_entry`: classify one row,
synthesize postings and construct a `LedgerEntry`; any failure (missing
field or construction error) yields `none` — the `except` clause of the
source returns `None`. -/
def convert_transaction_to_ledger_entry (tx : Tx) : Option LedgerEntry :=
  match tx.date, tx.amount, tx.account_name with
  | some date, some amount, some account_name =>
    match mkLedgerEntry date (tx_description tx)
        (tx_postings tx amount account_name)
        ⟨tx.source_file, account_name, tx.category,
          tx_kind tx amount account_name⟩ with
    | Except.ok entry => some entry
    | Except.error _ => none
  | _, _, _ => none

/-- The entry-accumulation loop of
`LedgerBuilder.build_ledger_from_processed_files`: successful conversions
are appended in input order. -/
def converted_entries (txs : List Tx) : List LedgerEntry :=
  txs.filterMap convert_transaction_to_ledger_entry

/-- Result of a ledger-build run: accumulated entries (date-sorted) and the
converted/failed counters reported by the source. -/
structure BuildResult where
  entries : List LedgerEntry
  converted : ℕ
  failed : ℕ
deriving DecidableEq

/-- Insert an entry into a date-sorted list, before the first entry with an
equal or later date (insertion from the left keeps the stable order of
Python's `list.sort`). -/
def insertSortedByDate (e : LedgerEntry) : List LedgerEntry → List LedgerEntry
  | [] => [e]
  | x :: xs =>
    if e.date ≤ x.date then e :: x :: xs else x :: insertSortedByDate e xs

/-- The stable date sort of `self.entries.sort(key=lambda e: e.date)`; a
stable sort's output is unique, so this structural insertion sort is the
sort performed by the source. -/
def sortByDate : List LedgerEntry → List LedgerEntry
  | [] => []
  | e :: rest => insertSortedByDate e (sortByDate rest)

/-- Source `LedgerBuilder.build_ledger_from_processed_files`: convert every row,
count failures, and stably sort the surviving entries by date. -/
def build_ledger_from_processed_files (txs : List Tx) : BuildResult :=
  let converted := converted_entries txs
  { entries := sortByDate converted
    converted := converted.length
    failed := txs.length - converted.length }

/-- Helper: membership is preserved by sorted insertion. -/
theorem mem_insertSortedByDate {a e : LedgerEntry} {l : List LedgerEntry} :
    a ∈ insertSortedByDate e l ↔ a = e ∨ a ∈ l := by
  induction l with
  | nil => simp [insertSortedByDate]
  | cons x xs ih =>
      unfold insertSortedByDate
      split
      · simp
      · simp only [List.mem_cons, ih]
        tauto

/-- Helper: membership is preserved by the stable date sort. -/
theorem mem_sortByDate {a : LedgerEntry} {l : List LedgerEntry} :
    a ∈ sortByDate l ↔ a ∈ l := by
  induction l with
  | nil => simp [sortByDate]
  | cons x xs ih =>
      unfold sortByDate
      rw [mem_insertSortedByDate]
      simp [ih]

/-- Helper: sorted insertion adds one element. -/
theorem length_insertSortedByDate (e : LedgerEntry) (l : List LedgerEntry) :
    (insertSortedByDate e l).length = l.length + 1 := by
  induction l with
  | nil => rfl
  | cons x xs ih =>
      unfold insertSortedByDate
      split
      · rfl
      · simp [List.length_cons, ih]

/-- Helper: the stable date sort preserves length. -/
theorem length_sortByDate (l : List LedgerEntry) :
    (sortByDate l).length = l.length := by
  induction l with
  | nil => rfl
  | cons x xs ih =>
      unfold sortByDate
      rw [length_insertSortedByDate, ih, List.length_cons]

/-- One row of the flat CSV export (`LedgerBuilder.export_to_csv`). -/
structure CsvRow where
  date : ℤ
  description : String
  account : String
  amount : ℤ
  source_file : String
  transaction_id : String
deriving DecidableEq

/-- Source `LedgerBuilder.export_to_csv`: one output row per posting, carrying the
entry's date and description (the metadata has no `transaction_id` key, so
that column is always empty). -/
def export_to_csv (entries : List LedgerEntry) : List CsvRow :=
  entries.flatMap fun e =>
    e.postings.map fun p =>
      ⟨e.date, e.description, p.1, p.2, e.metadata.source_file, ""⟩

/-- Helper: a successfully constructed entry is balanced within `$0.01` and
carries exactly the postings it was given. -/
theorem mkLedgerEntry_ok_balanced {date : ℤ} {description : String}
    {postings : List (String × ℤ)} {metadata : EntryMeta} {e : LedgerEntry}
    (h : mkLedgerEntry date description postings metadata = Except.ok e) :
    e.postings = postings ∧ |(e.postings.map Prod.snd).sum| ≤ 1 := by
  unfold mkLedgerEntry at h
  split at h
  · exact absurd h (by simp)
  · next hle =>
      cases h
      refine ⟨rfl, ?_⟩
      rw [← pyAbs_eq_abs]
      exact le_of_not_lt hle

/-- Helper: conversely, balanced postings construct successfully. -/
theorem mkLedgerEntry_ok_of_balanced (date : ℤ) (description : String)
    (postings : List (String × ℤ)) (metadata : EntryMeta)
    (h : ¬(pyAbs ((postings.map Prod.snd).sum) > 1)) :
    mkLedgerEntry date description postings metadata =
      Except.ok ⟨date, description, postings, metadata⟩ := by
  unfold mkLedgerEntry
  rw [if_neg h]

/-- Helper: a converted entry's postings come from `create_ledger_postings`,
hence sum to exactly zero. -/
theorem convert_some_sum_zero {tx : Tx} {e : LedgerEntry}
    (h : convert_transaction_to_ledger_entry tx = some e) :
    ((e.postings.map Prod.snd).sum) = 0 := by
  unfold convert_transaction_to_ledger_entry at h
  split at h
  · split at h
    · next heq =>
        cases h
        rcases mkLedgerEntry_ok_balanced heq with ⟨hp, _⟩
        rw [hp]
        unfold tx_postings
        exact create_ledger_postings_sum ..
    · exact absurd h (by simp)
  · exact absurd h (by simp)

/-- Helper: every entry of a built ledger comes from a successful
conversion. -/
theorem mem_build_entries {txs : List Tx} {e : LedgerEntry}
    (h : e ∈ (build_ledger_from_processed_files txs).entries) :
    ∃ tx ∈ txs, convert_transaction_to_ledger_entry tx = some e := by
  unfold build_ledger_from_processed_files at h
  simp only [mem_sortByDate] at h
  exact List.mem_filterMap.mp h

/-- C2: constructing a `LedgerEntry` whose postings sum to more than `$0.01`
in absolute value yields a construction error instead of an entry; the
builder excludes such records from the entry list and counts them in the
failure total, so every entry of a built ledger satisfies
`|sum of posting amounts| ≤ 0.01` and `converted + failed` covers every
input row. -/
theorem C2_unbalanced_entry_rejected_and_counted :
    (∀ (date : ℤ) (description : String) (postings : List (String × ℤ))
        (metadata : EntryMeta),
        pyAbs ((postings.map Prod.snd).sum) > 1 →
        mkLedgerEntry date description postings metadata =
          Except.error "Ledger entry does not balance") ∧
    (∀ (txs : List Tx) (e : LedgerEntry),
        e ∈ (build_ledger_from_processed_files txs).entries →
        |(e.postings.map Prod.snd).sum| ≤ 1) ∧
    (∀ txs : List Tx,
        (build_ledger_from_processed_files txs).converted +
          (build_ledger_from_processed_files txs).failed = txs.length ∧
        (build_ledger_from_processed_files txs).entries.length =
          (build_ledger_from_processed_files txs).converted) := by
  refine ⟨?_, ?_, ?_⟩
  · intro date description postings metadata hgt
    unfold mkLedgerEntry
    rw [if_pos hgt]
  · intro txs e he
    rcases mem_build_entries he with ⟨tx, _, hc⟩
    rw [convert_some_sum_zero hc]
    norm_num
  · intro txs
    refine ⟨?_, ?_⟩
    · unfold build_ledger_from_processed_files
      simp only
      exact Nat.add_sub_cancel' (List.length_filterMap_le _ _)
    · unfold build_ledger_from_processed_files
      simp only
      exact length_sortByDate _

/-- Witness for C2: a posting list summing to `5` is rejected with a
construction error; a build over one concrete row yields a balanced entry
and consistent counters. -/
theorem C2_unbalanced_entry_rejected_and_counted_witness :
    mkLedgerEntry 0 "unbalanced" [("Assets:X", 5)] ⟨"", "A", none, "unknown"⟩ =
      Except.error "Ledger entry does not balance" ∧
    |((((build_ledger_from_processed_files
        [⟨some 0, some (-15000), some "Bank of America - Bank - Checking",
          some "Bill Payment", some "Credit Card Payments", none,
          "bank/bank_of_america/stmt.csv"⟩]).entries.headD default).postings.map
            Prod.snd).sum)| ≤ 1 ∧
    (build_ledger_from_processed_files
        [⟨some 0, some (-15000), some "Bank of America - Bank - Checking",
          some "Bill Payment", some "Credit Card Payments", none,
          "bank/bank_of_america/stmt.csv"⟩]).converted +
      (build_ledger_from_processed_files
        [⟨some 0, some (-15000), some "Bank of America - Bank - Checking",
          some "Bill Payment", some "Credit Card Payments", none,
          "bank/bank_of_america/stmt.csv"⟩]).failed = 1 :=
  ⟨C2_unbalanced_entry_rejected_and_counted.1 0 "unbalanced" [("Assets:X", 5)]
      ⟨"", "A", none, "unknown"⟩ (by decide),
   C2_unbalanced_entry_rejected_and_counted.2.1
     [⟨some 0, some (-15000), some "Bank of America - Bank - Checking",
       some "Bill Payment", some "Credit Card Payments", none,
       "bank/bank_of_america/stmt.csv"⟩]
     ((build_ledger_from_processed_files
       [⟨some 0, some (-15000), some "Bank of America - Bank - Checking",
         some "Bill Payment", some "Credit Card Payments", none,
         "bank/bank_of_america/stmt.csv"⟩]).entries.headD default) (by decide),
   (C2_unbalanced_entry_rejected_and_counted.2.2
     [⟨some 0, some (-15000), some "Bank of America - Bank - Checking",
       some "Bill Payment", some "Credit Card Payments", none,
       "bank/bank_of_america/stmt.csv"⟩]).1⟩

/-- Helper: unfolding one entry of the CSV export. -/
theorem export_to_csv_cons (e : LedgerEntry) (l : List LedgerEntry) :
    export_to_csv (e :: l) =
      (e.postings.map fun p =>
        (⟨e.date, e.description, p.1, p.2, e.metadata.source_file, ""⟩ : CsvRow)) ++
      export_to_csv l := by
  simp [export_to_csv]

/-- Helper: the rows exported from a single entry contribute the entry's
whole posting sum to a `(date, description)` group when the entry matches
the group key, and nothing otherwise. -/
theorem rows_filter_sum (dd : ℤ) (s : String) (date : ℤ) (desc sf : String)
    (post : List (String × ℤ)) :
    (((post.map fun p => (⟨date, desc, p.1, p.2, sf, ""⟩ : CsvRow)).filter
        (fun r => r.date == dd && r.description == s)).map
          (fun r => r.amount)).sum =
      if (date == dd && desc == s) = true then (post.map Prod.snd).sum else 0 := by
  induction post with
  | nil => cases h : (date == dd && desc == s) <;> simp [h]
  | cons p ps ih =>
      cases h : (date == dd && desc == s) <;>
        simp only [h] at ih <;>
        simp [List.filter_cons, h, ih]

/-- Helper: grouping the exported rows of any all-balanced entry list by
`(date, description)` yields groups whose amounts sum to zero. -/
theorem export_group_sum_zero (l : List LedgerEntry)
    (h : ∀ e ∈ l, (e.postings.map Prod.snd).sum = 0) (d : ℤ) (s : String) :
    (((export_to_csv l).filter
        (fun r => r.date == d && r.description == s)).map
          (fun r => r.amount)).sum = 0 := by
  induction l with
  | nil => simp [export_to_csv]
  | cons e l ih =>
      rw [export_to_csv_cons, List.filter_append, List.map_append,
        List.sum_append, rows_filter_sum, h e (List.mem_cons_self e l),
        ih fun e' h' => h e' (List.mem_cons_of_mem e h')]
      simp

/-- C9: for every built ledger, exporting to the flat CSV format (one row
per posting, carrying the entry's date and description) and re-aggregating
the exported rows by `(date, description)` yields, for every group, amounts
summing to `0` — in particular within the `$0.01` tolerance. -/
theorem C9_export_roundtrip_groups_balance (txs : List Tx) (d : ℤ) (s : String) :
    (((export_to_csv (build_ledger_from_processed_files txs).entries).filter
        (fun r => r.date == d && r.description == s)).map
          (fun r => r.amount)).sum = 0 ∧
    |(((export_to_csv (build_ledger_from_processed_files txs).entries).filter
        (fun r => r.date == d && r.description == s)).map
          (fun r => r.amount)).sum| ≤ 1 := by
  have hz : ∀ e ∈ (build_ledger_from_processed_files txs).entries,
      (e.postings.map Prod.snd).sum = 0 := by
    intro e he
    rcases mem_build_entries he with ⟨tx, _, hc⟩
    exact convert_some_sum_zero hc
  have h0 := export_group_sum_zero _ hz d s
  refine ⟨h0, ?_⟩
  rw [h0]
  norm_num

/-- Helper: when `pat` occurs in `s`, `s.split(pat, 1)` has exactly two
parts. -/
theorem pySplit1_two {s pat : String} (h : pyContains s pat = true) :
    ∃ a b, pySplit1 s pat = [a, b] := by
  unfold pyContains at h
  unfold pySplit1
  cases hb : breakOn pat.data s.data with
  | none => rw [hb] at h; simp at h
  | some pr =>
      obtain ⟨pre, post⟩ := pr
      exact ⟨⟨pre⟩, ⟨post⟩, rfl⟩

/-- Helper: `extract_transfer_accounts` yields a pair exactly when the
category hint is a transfer category and the (lowercased) description
contains `from` or `to`. -/
theorem extract_transfer_accounts_isSome_iff (odesc acct : String)
    (cat : Option String) :
    (extract_transfer_accounts odesc acct cat).isSome = true ↔
      ((∃ c, cat = some c ∧
          (pyLower c == "transfers" || pyLower c == "transfer") = true) ∧
        (pyContains (pyLower odesc) "from" = true ∨
          pyContains (pyLower odesc) "to" = true)) := by
  cases cat with
  | none => simp [extract_transfer_accounts]
  | some c =>
      simp only [extract_transfer_accounts]
      by_cases h1 : (c != "" && (pyLower c == "transfers" || pyLower c == "transfer")) = true
      · rw [if_pos h1]
        rcases (Bool.and_eq_true _ _ ▸ h1) with ⟨hne, hcat⟩
        by_cases h2 : pyContains (pyLower odesc) "from" = true
        · rw [if_pos h2]
          obtain ⟨a, b, hab⟩ := pySplit1_two h2
          rw [hab]
          simp only [Option.isSome_some, true_iff]
          exact ⟨⟨c, rfl, hcat⟩, Or.inl h2⟩
        · rw [if_neg h2]
          by_cases h3 : pyContains (pyLower odesc) "to" = true
          · rw [if_pos h3]
            obtain ⟨a, b, hab⟩ := pySplit1_two h3
            rw [hab]
            simp only [Option.isSome_some, true_iff]
            exact ⟨⟨c, rfl, hcat⟩, Or.inr h3⟩
          · rw [if_neg h3]
            simp only [Option.isSome_none, Bool.false_eq_true, false_iff, not_and,
              not_or]
            intro _
            exact ⟨fun hf => h2 hf, fun ht => h3 ht⟩
      · rw [if_neg h1]
        simp only [Option.isSome_none, Bool.false_eq_true, false_iff, not_and]
        rintro ⟨c', hc', hcat⟩ _
        cases hc'
        by_cases hne : c = ""
        · subst hne
          simp [pyLower] at hcat
        · exact h1 (by simp [hne, hcat])

/-- Helper: a non-transfer category hint makes `extract_transfer_accounts`
return `none`. -/
theorem extract_transfer_accounts_none_of_cat (odesc acct : String)
    (cat : Option String)
    (h : ∀ c, cat = some c →
      (pyLower c == "transfers" || pyLower c == "transfer") = false) :
    extract_transfer_accounts odesc acct cat = none := by
  rw [← Option.not_isSome_iff_eq_none]
  intro hs
  rcases (extract_transfer_accounts_isSome_iff odesc acct cat).mp hs with
    ⟨⟨c, hc, hcat⟩, _⟩
  rw [h c hc] at hcat
  exact Bool.false_ne_true hcat

/-- Helper: a `transfer` kind with no (truthy) resolved source account falls
into the sign-based unknown fallback of `create_ledger_postings`. -/
theorem create_ledger_postings_transfer_nosource (acct : String) (amount : ℤ)
    (desc : String) (cat tgt : Option String) (inst : String) :
    create_ledger_postings acct amount "transfer" desc none cat none tgt inst =
      if amount < 0 then
        [(get_ledger_account inst acct none, amount),
         ("Expenses:" ++ pyOrStr cat "Unknown", -amount)]
      else
        [("Income:" ++ pyOrStr cat "Unknown", -amount),
         (get_ledger_account inst acct none, amount)] := by
  simp [create_ledger_postings, optTruthy]

/-- C10: `extract_transfer_accounts` returns a `(source, target)` pair
exactly when the category hint is `transfer`/`transfers` (case-insensitive)
and the description contains `from` or `to`; consequently a row classified
`transfer` without a transfer category hint fails counterparty resolution
and is posted through the sign-based unknown fallback (an
`Expenses:`/`Income:` bucket) instead of as an account-to-account
transfer. -/
theorem C10_transfer_resolution_requires_category :
    (∀ (odesc acct : String) (cat : Option String),
      (extract_transfer_accounts odesc acct cat).isSome = true ↔
        ((∃ c, cat = some c ∧
            (pyLower c == "transfers" || pyLower c == "transfer") = true) ∧
          (pyContains (pyLower odesc) "from" = true ∨
            pyContains (pyLower odesc) "to" = true))) ∧
    (∀ (tx : Tx) (date : ℤ) (amount : ℤ) (account_name : String),
      tx.date = some date → tx.amount = some amount →
      tx.account_name = some account_name →
      tx_kind tx amount account_name = "transfer" →
      (∀ c, tx.category = some c →
        (pyLower c == "transfers" || pyLower c == "transfer") = false) →
      ∃ e, convert_transaction_to_ledger_entry tx = some e ∧
        e.postings =
          (if amount < 0 then
            [(get_ledger_account (extract_institution account_name tx.source_file)
                account_name none, amount),
             ("Expenses:" ++ pyOrStr tx.category "Unknown", -amount)]
          else
            [("Income:" ++ pyOrStr tx.category "Unknown", -amount),
             (get_ledger_account (extract_institution account_name tx.source_file)
                account_name none, amount)])) := by
  refine ⟨extract_transfer_accounts_isSome_iff, ?_⟩
  intro tx date amount account_name hd ha hn hkind hcat
  have hext : extract_transfer_accounts
      (pyOrStr tx.original_description (tx_description tx)) account_name
      tx.category = none :=
    extract_transfer_accounts_none_of_cat _ _ _ hcat
  have hst : tx_source_target tx amount account_name = (none, none) := by
    unfold tx_source_target
    rw [hkind]
    simp [resolve_transfer_accounts, hext]
  have hpost : tx_postings tx amount account_name =
      (if amount < 0 then
        [(get_ledger_account (extract_institution account_name tx.source_file)
            account_name none, amount),
         ("Expenses:" ++ pyOrStr tx.category "Unknown", -amount)]
      else
        [("Income:" ++ pyOrStr tx.category "Unknown", -amount),
         (get_ledger_account (extract_institution account_name tx.source_file)
            account_name none, amount)]) := by
    unfold tx_postings
    rw [hkind, hst]
    exact create_ledger_postings_transfer_nosource ..
  have h0 : ((tx_postings tx amount account_name).map Prod.snd).sum = 0 := by
    unfold tx_postings
    exact create_ledger_postings_sum ..
  have hbal : ¬(pyAbs (((tx_postings tx amount account_name).map Prod.snd).sum) > 1) := by
    rw [h0]
    decide
  refine ⟨⟨date, tx_description tx, tx_postings tx amount account_name,
    ⟨tx.source_file, account_name, tx.category, tx_kind tx amount account_name⟩⟩,
    ?_, hpost⟩
  simp only [convert_transaction_to_ledger_entry, hd, ha, hn]
  rw [mkLedgerEntry_ok_of_balanced _ _ _ _ hbal]

/-- Witness for C10: a checking row whose description says
`Online Transfer` but whose category hint is absent is classified as a
transfer yet posted through the `Expenses:Unknown` fallback. -/
theorem C10_transfer_resolution_requires_category_witness :
    ∃ e, convert_transaction_to_ledger_entry
        ⟨some 0, some (-5000), some "Bank of America - Bank - Checking",
         some "Online Transfer", none, none, "bank/bank_of_america/stmt.csv"⟩ = some e ∧
      e.postings =
        (if (-5000 : ℤ) < 0 then
          [(get_ledger_account
              (extract_institution "Bank of America - Bank - Checking"
                "bank/bank_of_america/stmt.csv")
              "Bank of America - Bank - Checking" none, (-5000 : ℤ)),
           ("Expenses:" ++ pyOrStr none "Unknown", -(-5000 : ℤ))]
        else
          [("Income:" ++ pyOrStr none "Unknown", -(-5000 : ℤ)),
           (get_ledger_account
              (extract_institution "Bank of America - Bank - Checking"
                "bank/bank_of_america/stmt.csv")
              "Bank of America - Bank - Checking" none, (-5000 : ℤ))]) :=
  C10_transfer_resolution_requires_category.2
    ⟨some 0, some (-5000), some "Bank of America - Bank - Checking",
     some "Online Transfer", none, none, "bank/bank_of_america/stmt.csv"⟩
    0 (-5000) "Bank of America - Bank - Checking" rfl rfl rfl (by decide)
    (fun c h => by cases h)

/-! ## `account_matcher.py`

Amounts are integer cents and confidence scores integer tenths, so the
source's `amount_diff < 0.01` gate is `< 1`, `amount_diff < 1.0` is
`< 100`, the weights `0.4/0.3/0.2/0.1` are `4/3/2/1` and the `0.6`
acceptance threshold is `6`. -/

/-- One row of the loaded ledger CSV as the matcher sees it.  `source_file`
models the optional `_source_file` column: the source reads it with
`row.get('_source_file', '')`, so `none` stands for an absent column. -/
structure LRow where
  date : ℤ
  description : String
  account : String
  amount : ℤ
  source_file : Option String
deriving DecidableEq

/-- Structure `TransactionMatch` (account_matcher.py).  The `match_reasons` strings
are modelled by their static prefixes (the source interpolates amounts into
them, which no claim depends on). -/
structure TransactionMatch where
  checking_entry : LRow
  credit_card_entry : LRow
  amount : ℤ
  date : ℤ
  confidence : ℤ
  match_reasons : List String
deriving DecidableEq

/-- The `checking_payments` dataframe filter of
`find_credit_card_payments`: rows of an `Assets:` account with negative
amount whose description matches `AMERICAN EXPRESS|ACH PMT|PAYMENT`
case-insensitively. -/
def is_checking_payment_row (r : LRow) : Bool :=
  listStartsWith "Assets:".data r.account.data && decide (r.amount < 0) &&
    (pyContains (pyLower r.description) "american express" ||
     pyContains (pyLower r.description) "ach pmt" ||
     pyContains (pyLower r.description) "payment")

/-- The `credit_card_payments` dataframe filter of
`find_credit_card_payments`: rows of a `Liabilities:CreditCards:` account
with negative amount whose description matches
`ONLINE PAYMENT|PAYMENT - THANK YOU` case-insensitively. -/
def is_credit_card_payment_row (r : LRow) : Bool :=
  listStartsWith "Liabilities:CreditCards:".data r.account.data &&
    decide (r.amount < 0) &&
    (pyContains (pyLower r.description) "online payment" ||
     pyContains (pyLower r.description) "payment - thank you")

/-- The `card_name` extraction from a (lowercased) checking description. -/
def checking_card_name (checking_desc : String) : Option String :=
  if pyContains checking_desc "american express" then some "AmericanExpress"
  else if pyContains checking_desc "bank of america" &&
      pyContains checking_desc "credit" then some "BankOfAmerica"
  else none

/-- The `cc_account_card` extraction from the credit-card row's account. -/
def cc_account_card (cc_account : String) : Option String :=
  if pyContains cc_account "Liabilities:CreditCards:" then
    some (pyTailSplit cc_account "Liabilities:CreditCards:")
  else none

/-- The per-pair body of the matching loop of `find_credit_card_payments`:
the two `continue` gates (amount within `$1`, date within the window) and
the additive confidence (in tenths) with its reason strings; `none` models
a `continue`.  The card-name tests follow Python truthiness
(`if card_name and cc_account_card and ...` / `elif card_name or
cc_account_card`): an extracted card name that is the empty string is
falsy and earns no weight. -/
def score_pair (max_date_diff_days : ℤ) (checking_row cc_row : LRow) :
    Option (ℤ × List String) :=
  let checking_amount := pyAbs checking_row.amount
  let cc_amount := pyAbs cc_row.amount
  let checking_desc := pyLower checking_row.description
  let cc_desc := pyLower cc_row.description
  let checking_source := checking_row.source_file.getD ""
  let cc_source := cc_row.source_file.getD ""
  let card_name := checking_card_name checking_desc
  let cc_card := cc_account_card cc_row.account
  let amount_diff := pyAbs (checking_amount - cc_amount)
  let aw : Option (ℤ × String) :=
    if amount_diff < 1 then some (4, "Amount match")
    else if amount_diff < 100 then some (2, "Amount close")
    else none
  match aw with
  | none => none
  | some (a, ar) =>
    let date_diff := pyAbs (checking_row.date - cc_row.date)
    let dw : Option (ℤ × String) :=
      if date_diff = 0 then some (3, "Same date")
      else if date_diff ≤ max_date_diff_days then some (2, "Date within window")
      else none
    match dw with
    | none => none
    | some (d, dr) =>
      let cweight : ℤ :=
        if optTruthy card_name && optTruthy cc_card &&
            (card_name.getD "" == cc_card.getD "") then 2
        else if optTruthy card_name || optTruthy cc_card then 1
        else 0
      let creasons : List String :=
        if optTruthy card_name && optTruthy cc_card &&
            (card_name.getD "" == cc_card.getD "") then ["Card name match"]
        else if optTruthy card_name || optTruthy cc_card then ["Partial card match"]
        else []
      let bweight : ℤ :=
        if pyContains (pyLower checking_source) "bank" &&
            pyContains (pyLower cc_source) "bank" then 1
        else 0
      let breasons : List String :=
        if pyContains (pyLower checking_source) "bank" &&
            pyContains (pyLower cc_source) "bank" then ["Both from bank sources"]
        else []
      let pweight : ℤ :=
        if pyContains checking_desc "payment" && pyContains cc_desc "payment" then 1
        else 0
      let preasons : List String :=
        if pyContains checking_desc "payment" && pyContains cc_desc "payment" then
          ["Both payment descriptions"]
        else []
      some (a + d + cweight + bweight + pweight,
        [ar, dr] ++ creasons ++ breasons ++ preasons)

/-- The acceptance step of the loop body: a pair becomes a
`TransactionMatch` exactly when its confidence reaches the `0.6` (= `6`
tenths) threshold. -/
def match_pair (max_date_diff_days : ℤ) (checking_row cc_row : LRow) :
    Option TransactionMatch :=
  match score_pair max_date_diff_days checking_row cc_row with
  | none => none
  | some (confidence, reasons) =>
    if confidence ≥ 6 then
      some ⟨checking_row, cc_row, pyAbs checking_row.amount, checking_row.date,
        confidence, reasons⟩
    else none

/-- The inner loop with its `break`: the first accepted credit-card
candidate wins. -/
def find_first_match (max_date_diff_days : ℤ) (checking_row : LRow) :
    List LRow → Option TransactionMatch
  | [] => none
  | cc :: rest =>
    match match_pair max_date_diff_days checking_row cc with
    | some m => some m
    | none => find_first_match max_date_diff_days checking_row rest

/-- Source `AccountMatcher.find_credit_card_payments`: filter both candidate sets
and greedily match each checking payment to its first accepted credit-card
candidate. -/
def find_credit_card_payments (max_date_diff_days : ℤ) (rows : List LRow) :
    List TransactionMatch :=
  let checking_payments := rows.filter is_checking_payment_row
  let credit_card_payments := rows.filter is_credit_card_payment_row
  checking_payments.filterMap fun chk =>
    find_first_match max_date_diff_days chk credit_card_payments

/-- One corrected-ledger row produced by `create_corrected_entries`. -/
structure CorrectedRow where
  date : ℤ
  description : String
  account : String
  amount : ℤ
  source_file : String
  original_entry : String
  match_confidence : ℤ
  match_reasons : List String
deriving DecidableEq

/-- Source `AccountMatcher.create_corrected_entries`: for each match (whose
credit-card account carries the `Liabilities:CreditCards:` prefix; others
are skipped by `continue`), emit the corrected two-posting entry
`(checking_account, -amount)` / (`Liabilities:CreditCards:` + correct card,
`+amount`). -/
def create_corrected_entries (ms : List TransactionMatch) :
    List CorrectedRow :=
  ms.flatMap fun m =>
    if pyContains m.credit_card_entry.account "Liabilities:CreditCards:" then
      let correct_cc :=
        pyTailSplit m.credit_card_entry.account "Liabilities:CreditCards:"
      let orig_desc :=
        if m.checking_entry.description == "" ||
            m.checking_entry.description.data.length < 10 then
          m.credit_card_entry.description
        else m.checking_entry.description
      let source_file :=
        if (m.checking_entry.source_file.getD "") == "" then
          m.credit_card_entry.source_file.getD ""
        else m.checking_entry.source_file.getD ""
      [⟨m.date, orig_desc, m.checking_entry.account, -m.amount, source_file,
        "checking_payment", m.confidence, m.match_reasons⟩,
       ⟨m.date, orig_desc, "Liabilities:CreditCards:" ++ correct_cc, m.amount,
        source_file, "credit_card_payment", m.confidence, m.match_reasons⟩]
    else []

/-- The checking-leg mask of `create_reconciled_ledger`: `(date, account,
amount)` equality with the match's checking entry. -/
def chk_leg_mask (m : TransactionMatch) (r : LRow) : Bool :=
  decide (r.date = m.date) && r.account == m.checking_entry.account &&
    decide (r.amount = m.checking_entry.amount)

/-- The same-date wrong-card candidate mask (before the
`wrong_card != correct_cc` test): any `Liabilities:CreditCards:` row of the
match's date with amount `abs(match.amount)`. -/
def wrong_card_base_mask (m : TransactionMatch) (r : LRow) : Bool :=
  decide (r.date = m.date) &&
    listStartsWith "Liabilities:CreditCards:".data r.account.data &&
    decide (r.amount = pyAbs m.amount)

/-- The credit-card-leg mask: `(date, account, amount)` equality with the
match's credit-card entry. -/
def cc_leg_mask (m : TransactionMatch) (r : LRow) : Bool :=
  decide (r.date = m.date) && r.account == m.credit_card_entry.account &&
    decide (r.amount = m.credit_card_entry.amount)

/-- The same-date expense mask: any `Expenses:` row of the match's date
with amount `abs(match.amount)`. -/
def expense_mask (m : TransactionMatch) (r : LRow) : Bool :=
  decide (r.date = m.date) && listStartsWith "Expenses:".data r.account.data &&
    decide (r.amount = pyAbs m.amount)

/-- The per-match index-collection loops of `create_reconciled_ledger`
(`indices_to_remove` is a set, so list duplicates are harmless): loop 1
pairs every checking-leg row with every same-date wrong-card row, loop 2
pairs every credit-card-leg row with every same-date expense row. -/
def removal_indices_for_match (rows : List (ℕ × LRow))
    (m : TransactionMatch) : List ℕ :=
  if pyContains m.credit_card_entry.account "Liabilities:CreditCards:" then
    let correct_cc :=
      pyTailSplit m.credit_card_entry.account "Liabilities:CreditCards:"
    let checking_indices := rows.filter fun p => chk_leg_mask m p.2
    let wrong_card_rows := (rows.filter fun p => wrong_card_base_mask m p.2).filter
      fun p => pyTailSplit p.2.account "Liabilities:CreditCards:" != correct_cc
    let loop1 := checking_indices.flatMap fun ci =>
      wrong_card_rows.flatMap fun wi => [ci.1, wi.1]
    let cc_indices := rows.filter fun p => cc_leg_mask m p.2
    let expense_rows := rows.filter fun p => expense_mask m p.2
    let loop2 := cc_indices.flatMap fun ci =>
      expense_rows.flatMap fun ei => [ci.1, ei.1]
    loop1 ++ loop2
  else []

/-- The reconciled ledger: rows kept from the frozen input snapshot, plus
the corrected rows (the source then date-sorts the concatenation, which
only permutes it). -/
structure ReconciledLedger where
  kept : List LRow
  corrected : List CorrectedRow
deriving DecidableEq

/-- Source `AccountMatcher.create_reconciled_ledger`: drop every row whose index
is collected for any match (all computed against the one loaded snapshot)
and append the corrected entries. -/
def create_reconciled_ledger (rows : List LRow)
    (ms : List TransactionMatch) : ReconciledLedger :=
  if ms.isEmpty then ⟨rows, []⟩
  else
    let indexed := rows.enum
    let to_remove := ms.flatMap (removal_indices_for_match indexed)
    ⟨(indexed.filter fun p => decide (p.1 ∉ to_remove)).map Prod.snd,
     create_corrected_entries ms⟩

/-- Modelled from the spec (§4.4): the additive confidence of a candidate
pair as the sum of the independent signal weights, in tenths — exact amount
`+4` or near-match within `$1` `+2`; same date `+3` or within window `+2`;
card-name match `+2` or partial `+1`; both bank-sourced `+1`; both payment
descriptions `+1` — with no `continue` gating.  Used to compare the spec's
description of the score against `score_pair`. -/
def additive_confidence (max_date_diff_days : ℤ) (checking_row cc_row : LRow) :
    ℤ :=
  let checking_desc := pyLower checking_row.description
  let cc_desc := pyLower cc_row.description
  let card_name := checking_card_name checking_desc
  let cc_card := cc_account_card cc_row.account
  let amount_diff := pyAbs (pyAbs checking_row.amount - pyAbs cc_row.amount)
  let date_diff := pyAbs (checking_row.date - cc_row.date)
  (if amount_diff < 1 then (4 : ℤ) else if amount_diff < 100 then 2 else 0) +
  (if date_diff = 0 then (3 : ℤ)
   else if date_diff ≤ max_date_diff_days then 2 else 0) +
  (if optTruthy card_name && optTruthy cc_card &&
      (card_name.getD "" == cc_card.getD "") then (2 : ℤ)
   else if optTruthy card_name || optTruthy cc_card then 1 else 0) +
  (if pyContains (pyLower (checking_row.source_file.getD "")) "bank" &&
      pyContains (pyLower (cc_row.source_file.getD "")) "bank" then (1 : ℤ)
   else 0) +
  (if pyContains checking_desc "payment" && pyContains cc_desc "payment" then
    (1 : ℤ) else 0)

/-- Counterexample to C4 as stated: a candidate pair whose amounts differ by
exactly `$1.00` (`100` cents — "at most $1" in the claim's words) on the same
date with a card-name match and payment markers.  The claim's additive
weights reach the `0.6` threshold (`additive_confidence = 6`), so the claim
accepts the pair, but the matcher's strict `amount_diff < 1.0` gate
`continue`s past it: no confidence is computed and no `Match` is created. -/
theorem C4_counterexample :
    is_checking_payment_row
      ⟨0, "AMERICAN EXPRESS PAYMENT", "Assets:BankOfAmerica:Checking",
        -50000, none⟩ = true ∧
    is_credit_card_payment_row
      ⟨0, "ONLINE PAYMENT - THANK YOU",
        "Liabilities:CreditCards:AmericanExpress", -50100, none⟩ = true ∧
    pyAbs (pyAbs (-50000 : ℤ) - pyAbs (-50100 : ℤ)) ≤ 100 ∧
    pyAbs ((0 : ℤ) - 0) ≤ 3 ∧
    additive_confidence 3
      ⟨0, "AMERICAN EXPRESS PAYMENT", "Assets:BankOfAmerica:Checking",
        -50000, none⟩
      ⟨0, "ONLINE PAYMENT - THANK YOU",
        "Liabilities:CreditCards:AmericanExpress", -50100, none⟩ ≥ 6 ∧
    score_pair 3
      ⟨0, "AMERICAN EXPRESS PAYMENT", "Assets:BankOfAmerica:Checking",
        -50000, none⟩
      ⟨0, "ONLINE PAYMENT - THANK YOU",
        "Liabilities:CreditCards:AmericanExpress", -50100, none⟩ = none ∧
    match_pair 3
      ⟨0, "AMERICAN EXPRESS PAYMENT", "Assets:BankOfAmerica:Checking",
        -50000, none⟩
      ⟨0, "ONLINE PAYMENT - THANK YOU",
        "Liabilities:CreditCards:AmericanExpress", -50100, none⟩ = none ∧
    find_credit_card_payments 3
      [⟨0, "AMERICAN EXPRESS PAYMENT", "Assets:BankOfAmerica:Checking",
        -50000, none⟩,
       ⟨0, "ONLINE PAYMENT - THANK YOU",
        "Liabilities:CreditCards:AmericanExpress", -50100, none⟩] = [] := by
  decide

/-- C4 (amended): for candidate pairs whose amounts differ by *strictly less
than* `$1` (`100` cents) and whose dates differ by at most the window, the
matcher's confidence is exactly the additive signal-weight sum (exact amount
`+0.4` or near-match `+0.2`; same date `+0.3` or within window `+0.2`;
card-name match `+0.2` or partial `+0.1`; both bank-sourced `+0.1`; both
payment markers `+0.1`, all in tenths) and the pair is accepted as a Match
exactly when that confidence reaches `0.6` (`6` tenths) — so `0.6` is
accepted and `0.59` would be rejected. -/
theorem C4_matcher_confidence_additive_and_thresholded (w : ℤ) (chk cc : LRow)
    (hchk : is_checking_payment_row chk = true)
    (hcc : is_credit_card_payment_row cc = true)
    (hamt : pyAbs (pyAbs chk.amount - pyAbs cc.amount) < 100)
    (hdate : pyAbs (chk.date - cc.date) ≤ w) :
    (∃ reasons, score_pair w chk cc =
      some (additive_confidence w chk cc, reasons)) ∧
    ((match_pair w chk cc).isSome = true ↔ additive_confidence w chk cc ≥ 6) := by
  have key : ∃ reasons, score_pair w chk cc =
      some (additive_confidence w chk cc, reasons) := by
    simp only [score_pair, additive_confidence]
    by_cases h1 : pyAbs (pyAbs chk.amount - pyAbs cc.amount) < 1
    · by_cases h2 : pyAbs (chk.date - cc.date) = 0
      · simp only [if_pos h1, if_pos h2]
        exact ⟨_, rfl⟩
      · simp only [if_pos h1, if_neg h2, if_pos hdate]
        exact ⟨_, rfl⟩
    · by_cases h2 : pyAbs (chk.date - cc.date) = 0
      · simp only [if_neg h1, if_pos hamt, if_pos h2]
        exact ⟨_, rfl⟩
      · simp only [if_neg h1, if_pos hamt, if_neg h2, if_pos hdate]
        exact ⟨_, rfl⟩
  obtain ⟨reasons, hs⟩ := key
  refine ⟨⟨reasons, hs⟩, ?_⟩
  simp only [match_pair, hs]
  by_cases h6 : additive_confidence w chk cc ≥ 6
  · simp [h6]
  · simp [h6]

/-- Witness for C4 (amended): the spec's two-feed scenario — an exact-amount,
same-date pair with a card-name match — scores `0.9` and is accepted. -/
theorem C4_matcher_confidence_additive_and_thresholded_witness :
    (∃ reasons, score_pair 3
      ⟨0, "AMERICAN EXPRESS ACH PMT", "Assets:BankOfAmerica:Checking",
        -50000, none⟩
      ⟨0, "ONLINE PAYMENT - THANK YOU",
        "Liabilities:CreditCards:AmericanExpress", -50000, none⟩ =
      some (additive_confidence 3
        ⟨0, "AMERICAN EXPRESS ACH PMT", "Assets:BankOfAmerica:Checking",
          -50000, none⟩
        ⟨0, "ONLINE PAYMENT - THANK YOU",
          "Liabilities:CreditCards:AmericanExpress", -50000, none⟩, reasons)) ∧
    ((match_pair 3
      ⟨0, "AMERICAN EXPRESS ACH PMT", "Assets:BankOfAmerica:Checking",
        -50000, none⟩
      ⟨0, "ONLINE PAYMENT - THANK YOU",
        "Liabilities:CreditCards:AmericanExpress", -50000, none⟩).isSome = true ↔
      additive_confidence 3
        ⟨0, "AMERICAN EXPRESS ACH PMT", "Assets:BankOfAmerica:Checking",
          -50000, none⟩
        ⟨0, "ONLINE PAYMENT - THANK YOU",
          "Liabilities:CreditCards:AmericanExpress", -50000, none⟩ ≥ 6) :=
  C4_matcher_confidence_additive_and_thresholded 3
    ⟨0, "AMERICAN EXPRESS ACH PMT", "Assets:BankOfAmerica:Checking",
      -50000, none⟩
    ⟨0, "ONLINE PAYMENT - THANK YOU",
      "Liabilities:CreditCards:AmericanExpress", -50000, none⟩
    (by decide) (by decide) (by decide) (by decide)

/-- Helper: the indices collected for one match are exactly the rows
matching one of the four removal masks, each guarded by the existence of a
row matching the paired mask. -/
theorem mem_removal_indices_iff (rows : List LRow) (m : TransactionMatch)
    (i : ℕ)
    (hcc : pyContains m.credit_card_entry.account "Liabilities:CreditCards:" = true) :
    i ∈ removal_indices_for_match rows.enum m ↔
      ((∃ r, (i, r) ∈ rows.enum ∧ chk_leg_mask m r = true) ∧
        (∃ j w, (j, w) ∈ rows.enum ∧ wrong_card_base_mask m w = true ∧
          (pyTailSplit w.account "Liabilities:CreditCards:" !=
            pyTailSplit m.credit_card_entry.account
              "Liabilities:CreditCards:") = true)) ∨
      ((∃ r, (i, r) ∈ rows.enum ∧ wrong_card_base_mask m r = true ∧
          (pyTailSplit r.account "Liabilities:CreditCards:" !=
            pyTailSplit m.credit_card_entry.account
              "Liabilities:CreditCards:") = true) ∧
        (∃ j c, (j, c) ∈ rows.enum ∧ chk_leg_mask m c = true)) ∨
      ((∃ r, (i, r) ∈ rows.enum ∧ cc_leg_mask m r = true) ∧
        (∃ j e, (j, e) ∈ rows.enum ∧ expense_mask m e = true)) ∨
      ((∃ r, (i, r) ∈ rows.enum ∧ expense_mask m r = true) ∧
        (∃ j c, (j, c) ∈ rows.enum ∧ cc_leg_mask m c = true)) := by
  unfold removal_indices_for_match
  rw [if_pos hcc]
  simp only [List.mem_append, List.mem_flatMap, List.mem_filter, List.mem_cons,
    List.not_mem_nil, or_false]
  constructor
  · rintro (⟨⟨ci1, cir⟩, ⟨hciMem, hciMask⟩, ⟨wi1, wir⟩, ⟨⟨hwiMem, hwiBase⟩, hwiNe⟩,
        hi | hi⟩ |
      ⟨⟨ci1, cir⟩, ⟨hciMem, hciMask⟩, ⟨ei1, eir⟩, ⟨heiMem, heiMask⟩, hi | hi⟩)
    · subst hi
      exact Or.inl ⟨⟨cir, hciMem, hciMask⟩, wi1, wir, hwiMem, hwiBase, hwiNe⟩
    · subst hi
      exact Or.inr (Or.inl ⟨⟨wir, hwiMem, hwiBase, hwiNe⟩, ci1, cir, hciMem, hciMask⟩)
    · subst hi
      exact Or.inr (Or.inr (Or.inl ⟨⟨cir, hciMem, hciMask⟩, ei1, eir, heiMem, heiMask⟩))
    · subst hi
      exact Or.inr (Or.inr (Or.inr ⟨⟨eir, heiMem, heiMask⟩, ci1, cir, hciMem, hciMask⟩))
  · rintro (⟨⟨r, hr, hrm⟩, ⟨j, w, hw, hwb, hwn⟩⟩ |
      ⟨⟨r, hr, hrb, hrn⟩, ⟨j, c, hc, hcm⟩⟩ |
      ⟨⟨r, hr, hrm⟩, ⟨j, e, he, hem⟩⟩ |
      ⟨⟨r, hr, hrm⟩, ⟨j, c, hc, hcm⟩⟩)
    · exact Or.inl ⟨(i, r), ⟨hr, hrm⟩, (j, w), ⟨⟨hw, hwb⟩, hwn⟩, Or.inl rfl⟩
    · exact Or.inl ⟨(j, c), ⟨hc, hcm⟩, (i, r), ⟨⟨hr, hrb⟩, hrn⟩, Or.inr rfl⟩
    · exact Or.inr ⟨(i, r), ⟨hr, hrm⟩, (j, e), ⟨he, hem⟩, Or.inl rfl⟩
    · exact Or.inr ⟨(j, c), ⟨hc, hcm⟩, (i, r), ⟨hr, hrm⟩, Or.inr rfl⟩

/-- Counterexample to C5 as stated: a five-row ledger holding the four legs
of one mismatched credit-card payment plus one unrelated same-date,
same-amount `Expenses:Groceries` posting.  The matcher accepts exactly one
Match, but the repair removes all five rows — the unrelated grocery posting
(index 4) included — not just the four original postings. -/
theorem C5_counterexample :
    (find_credit_card_payments 3
      [⟨0, "AMERICAN EXPRESS ACH PMT", "Assets:BankOfAmerica:Checking",
        -50000, none⟩,
       ⟨0, "AMERICAN EXPRESS ACH PMT", "Liabilities:CreditCards:BankOfAmerica",
        50000, none⟩,
       ⟨0, "ONLINE PAYMENT - THANK YOU",
        "Liabilities:CreditCards:AmericanExpress", -50000, none⟩,
       ⟨0, "ONLINE PAYMENT - THANK YOU", "Expenses:Uncategorized",
        50000, none⟩,
       ⟨0, "GROCERY STORE", "Expenses:Groceries", 50000, none⟩]).length = 1 ∧
    (∀ m ∈ find_credit_card_payments 3
      [⟨0, "AMERICAN EXPRESS ACH PMT", "Assets:BankOfAmerica:Checking",
        -50000, none⟩,
       ⟨0, "AMERICAN EXPRESS ACH PMT", "Liabilities:CreditCards:BankOfAmerica",
        50000, none⟩,
       ⟨0, "ONLINE PAYMENT - THANK YOU",
        "Liabilities:CreditCards:AmericanExpress", -50000, none⟩,
       ⟨0, "ONLINE PAYMENT - THANK YOU", "Expenses:Uncategorized",
        50000, none⟩,
       ⟨0, "GROCERY STORE", "Expenses:Groceries", 50000, none⟩],
      4 ∈ removal_indices_for_match
        [⟨0, "AMERICAN EXPRESS ACH PMT", "Assets:BankOfAmerica:Checking",
          -50000, none⟩,
         ⟨0, "AMERICAN EXPRESS ACH PMT", "Liabilities:CreditCards:BankOfAmerica",
          50000, none⟩,
         ⟨0, "ONLINE PAYMENT - THANK YOU",
          "Liabilities:CreditCards:AmericanExpress", -50000, none⟩,
         ⟨0, "ONLINE PAYMENT - THANK YOU", "Expenses:Uncategorized",
          50000, none⟩,
         ⟨0, "GROCERY STORE", "Expenses:Groceries", 50000, none⟩].enum m) ∧
    (create_reconciled_ledger
      [⟨0, "AMERICAN EXPRESS ACH PMT", "Assets:BankOfAmerica:Checking",
        -50000, none⟩,
       ⟨0, "AMERICAN EXPRESS ACH PMT", "Liabilities:CreditCards:BankOfAmerica",
        50000, none⟩,
       ⟨0, "ONLINE PAYMENT - THANK YOU",
        "Liabilities:CreditCards:AmericanExpress", -50000, none⟩,
       ⟨0, "ONLINE PAYMENT - THANK YOU", "Expenses:Uncategorized",
        50000, none⟩,
       ⟨0, "GROCERY STORE", "Expenses:Groceries", 50000, none⟩]
      (find_credit_card_payments 3
        [⟨0, "AMERICAN EXPRESS ACH PMT", "Assets:BankOfAmerica:Checking",
          -50000, none⟩,
         ⟨0, "AMERICAN EXPRESS ACH PMT", "Liabilities:CreditCards:BankOfAmerica",
          50000, none⟩,
         ⟨0, "ONLINE PAYMENT - THANK YOU",
          "Liabilities:CreditCards:AmericanExpress", -50000, none⟩,
         ⟨0, "ONLINE PAYMENT - THANK YOU", "Expenses:Uncategorized",
          50000, none⟩,
         ⟨0, "GROCERY STORE", "Expenses:Groceries", 50000, none⟩])).kept = [] := by
  refine ⟨by decide, by decide, by decide⟩

/-- C5 (amended): for each accepted Match whose credit-card account carries
the `Liabilities:CreditCards:` prefix, the repair — computed against the one
frozen, unreconciled snapshot — removes exactly the rows matching its four
removal masks: the checking leg and same-date wrong-card rows (by `(date,
account, amount)` against the match's checking entry, resp. `(date,
Liabilities:CreditCards:* with a different card, |amount|)`), each guarded
by the existence of the other, and the credit-card leg and same-date
`Expenses:` rows with amount `|amount|`, each guarded by the other; when
rows beyond the four original postings match these masks they are removed
too.  One corrected two-posting entry `(checking_account, -amount)`,
`(correct credit-card liability, +amount)` is inserted per match. -/
theorem C5_reconciliation_masks_and_corrected_entry :
    (∀ (rows : List LRow) (m : TransactionMatch) (i : ℕ),
      pyContains m.credit_card_entry.account "Liabilities:CreditCards:" = true →
      (i ∈ removal_indices_for_match rows.enum m ↔
        ((∃ r, (i, r) ∈ rows.enum ∧ chk_leg_mask m r = true) ∧
          (∃ j w, (j, w) ∈ rows.enum ∧ wrong_card_base_mask m w = true ∧
            (pyTailSplit w.account "Liabilities:CreditCards:" !=
              pyTailSplit m.credit_card_entry.account
                "Liabilities:CreditCards:") = true)) ∨
        ((∃ r, (i, r) ∈ rows.enum ∧ wrong_card_base_mask m r = true ∧
            (pyTailSplit r.account "Liabilities:CreditCards:" !=
              pyTailSplit m.credit_card_entry.account
                "Liabilities:CreditCards:") = true) ∧
          (∃ j c, (j, c) ∈ rows.enum ∧ chk_leg_mask m c = true)) ∨
        ((∃ r, (i, r) ∈ rows.enum ∧ cc_leg_mask m r = true) ∧
          (∃ j e, (j, e) ∈ rows.enum ∧ expense_mask m e = true)) ∨
        ((∃ r, (i, r) ∈ rows.enum ∧ expense_mask m r = true) ∧
          (∃ j c, (j, c) ∈ rows.enum ∧ cc_leg_mask m c = true)))) ∧
    (∀ m : TransactionMatch,
      pyContains m.credit_card_entry.account "Liabilities:CreditCards:" = true →
      ∃ d sf, create_corrected_entries [m] =
        [⟨m.date, d, m.checking_entry.account, -m.amount, sf,
          "checking_payment", m.confidence, m.match_reasons⟩,
         ⟨m.date, d,
          "Liabilities:CreditCards:" ++
            pyTailSplit m.credit_card_entry.account "Liabilities:CreditCards:",
          m.amount, sf, "credit_card_payment", m.confidence,
          m.match_reasons⟩]) ∧
    (∀ (rows : List LRow) (ms : List TransactionMatch), ms ≠ [] →
      ∀ r : LRow, r ∈ (create_reconciled_ledger rows ms).kept ↔
        ∃ j, (j, r) ∈ rows.enum ∧
          ∀ m' ∈ ms, j ∉ removal_indices_for_match rows.enum m') := by
  refine ⟨mem_removal_indices_iff, ?_, ?_⟩
  · intro m hcc
    exact ⟨if m.checking_entry.description == "" ||
        m.checking_entry.description.data.length < 10 then
      m.credit_card_entry.description else m.checking_entry.description,
      if (m.checking_entry.source_file.getD "") == "" then
        m.credit_card_entry.source_file.getD ""
      else m.checking_entry.source_file.getD "",
      by simp [create_corrected_entries, hcc]⟩
  · intro rows ms hne r
    unfold create_reconciled_ledger
    rw [if_neg (by simpa using hne)]
    simp only [List.mem_map, List.mem_filter, decide_eq_true_eq,
      List.mem_flatMap, not_exists, not_and]
    constructor
    · rintro ⟨⟨j, rr⟩, ⟨hmem, hnot⟩, hsnd⟩
      cases hsnd
      exact ⟨j, hmem, fun m' hm' hin => hnot m' hm' hin⟩
    · rintro ⟨j, hmem, hforall⟩
      exact ⟨(j, r), ⟨hmem, fun m' hm' hin => hforall m' hm' hin⟩, rfl⟩

/-- The four correctly-shaped legs of one mismatched credit-card payment,
used to witness the reconciliation theorem. -/
def c5_rows : List LRow :=
  [⟨0, "AMERICAN EXPRESS ACH PMT", "Assets:BankOfAmerica:Checking",
    -50000, none⟩,
   ⟨0, "AMERICAN EXPRESS ACH PMT", "Liabilities:CreditCards:BankOfAmerica",
    50000, none⟩,
   ⟨0, "ONLINE PAYMENT - THANK YOU",
    "Liabilities:CreditCards:AmericanExpress", -50000, none⟩,
   ⟨0, "ONLINE PAYMENT - THANK YOU", "Expenses:Uncategorized", 50000, none⟩]

/-- The Match the matcher accepts on `c5_rows` (confidence `0.9`). -/
def c5_match : TransactionMatch :=
  ⟨⟨0, "AMERICAN EXPRESS ACH PMT", "Assets:BankOfAmerica:Checking",
    -50000, none⟩,
   ⟨0, "ONLINE PAYMENT - THANK YOU",
    "Liabilities:CreditCards:AmericanExpress", -50000, none⟩,
   50000, 0, 9, ["Amount match", "Same date", "Card name match"]⟩

/-- Witness for C5 (amended), at the four-leg ledger `c5_rows` and its
accepted match `c5_match`. -/
theorem C5_reconciliation_masks_and_corrected_entry_witness :
    ((0 : ℕ) ∈ removal_indices_for_match c5_rows.enum c5_match ↔
      ((∃ r, ((0 : ℕ), r) ∈ c5_rows.enum ∧ chk_leg_mask c5_match r = true) ∧
        (∃ j w, (j, w) ∈ c5_rows.enum ∧ wrong_card_base_mask c5_match w = true ∧
          (pyTailSplit w.account "Liabilities:CreditCards:" !=
            pyTailSplit c5_match.credit_card_entry.account
              "Liabilities:CreditCards:") = true)) ∨
      ((∃ r, ((0 : ℕ), r) ∈ c5_rows.enum ∧
          wrong_card_base_mask c5_match r = true ∧
          (pyTailSplit r.account "Liabilities:CreditCards:" !=
            pyTailSplit c5_match.credit_card_entry.account
              "Liabilities:CreditCards:") = true) ∧
        (∃ j c, (j, c) ∈ c5_rows.enum ∧ chk_leg_mask c5_match c = true)) ∨
      ((∃ r, ((0 : ℕ), r) ∈ c5_rows.enum ∧ cc_leg_mask c5_match r = true) ∧
        (∃ j e, (j, e) ∈ c5_rows.enum ∧ expense_mask c5_match e = true)) ∨
      ((∃ r, ((0 : ℕ), r) ∈ c5_rows.enum ∧ expense_mask c5_match r = true) ∧
        (∃ j c, (j, c) ∈ c5_rows.enum ∧ cc_leg_mask c5_match c = true))) ∧
    (∃ d sf, create_corrected_entries [c5_match] =
      [⟨c5_match.date, d, c5_match.checking_entry.account, -c5_match.amount,
        sf, "checking_payment", c5_match.confidence, c5_match.match_reasons⟩,
       ⟨c5_match.date, d,
        "Liabilities:CreditCards:" ++
          pyTailSplit c5_match.credit_card_entry.account
            "Liabilities:CreditCards:",
        c5_match.amount, sf, "credit_card_payment", c5_match.confidence,
        c5_match.match_reasons⟩]) ∧
    (∀ r : LRow, r ∈ (create_reconciled_ledger c5_rows [c5_match]).kept ↔
      ∃ j, (j, r) ∈ c5_rows.enum ∧
        ∀ m' ∈ [c5_match], j ∉ removal_indices_for_match c5_rows.enum m') :=
  ⟨C5_reconciliation_masks_and_corrected_entry.1 c5_rows c5_match 0 (by decide),
   C5_reconciliation_masks_and_corrected_entry.2.1 c5_match (by decide),
   C5_reconciliation_masks_and_corrected_entry.2.2 c5_rows [c5_match]
     (by decide)⟩

/-! ## `deduplication.py`

Amounts are integer cents (the `$0.50` tolerance is `50`), confidence
scores are integer tenths (`0.9/0.7/0.5` are `9/7/5`, the `0.8` skip
threshold is `8`), and MD5 is modelled as the identity on the hashed text
(hash equality is text equality, the source's semantics modulo
collisions). -/

/-- The MD5 hash, modelled as an injective function — the identity on the
hashed text.  The spec requires only uniqueness of the hash, not secrecy. -/
def md5 (s : String) : String := s

/-- Source `calculate_description_hash` (deduplication.py): hash of the lowercased,
whitespace-collapsed description. -/
def calculate_description_hash (description : String) : String :=
  md5 (collapseWS (pyLower description))

/-- One persisted transaction row as the deduplication queries see it. -/
structure StoredTx where
  id : String
  account_id : String
  transaction_date : ℤ
  amount : ℤ
  description : String
deriving DecidableEq

/-- Source `find_exact_duplicates` (deduplication.py): rows of the same account,
date and amount whose *stored* description hashes (raw, via the database's
`md5` on the stored text) to the normalized-description hash of the
incoming transaction. -/
def find_exact_duplicates (store : List StoredTx) (account_id : String)
    (date : ℤ) (amount : ℤ) (description : String) : List String :=
  let desc_hash := calculate_description_hash description
  (store.filter fun t =>
    t.account_id == account_id && decide (t.transaction_date = date) &&
      decide (t.amount = amount) && (md5 t.description == desc_hash)).map
    (fun t => t.id)

/-- Source `find_fuzzy_duplicates` (deduplication.py): candidates of the same
account within `±date_tolerance_days` days and `±amount_tolerance` cents,
scored `0.9` when the normalized descriptions hash equal, `0.7` when one
(lowercased) description contains the other, else `0.5`. -/
def find_fuzzy_duplicates (store : List StoredTx) (account_id : String)
    (date : ℤ) (amount : ℤ) (description : String)
    (date_tolerance_days : ℤ := 3) (amount_tolerance : ℤ := 50) :
    List (String × ℤ) :=
  let desc_hash := calculate_description_hash description
  let candidates := store.filter fun t =>
    t.account_id == account_id &&
      decide (date - date_tolerance_days ≤ t.transaction_date) &&
      decide (t.transaction_date ≤ date + date_tolerance_days) &&
      decide (amount - amount_tolerance ≤ t.amount) &&
      decide (t.amount ≤ amount + amount_tolerance)
  candidates.map fun t =>
    (t.id,
     if calculate_description_hash t.description == desc_hash then (9 : ℤ)
     else if pyContains (pyLower t.description) (pyLower description) ||
         pyContains (pyLower description) (pyLower t.description) then 7
     else 5)

/-- One incoming transaction handed to `deduplicate_transactions`. -/
structure IncomingTx where
  account_id : String
  transaction_date : ℤ
  amount : ℤ
  description : String
deriving DecidableEq

/-- One entry of the `exact_duplicates` result list. -/
structure ExactDup where
  transaction_data : IncomingTx
  existing_transaction_ids : List String
  match_type : String
deriving DecidableEq

/-- One entry of the `fuzzy_duplicates` result list. -/
structure FuzzyDup where
  transaction_data : IncomingTx
  existing_transaction_ids : List String
  match_type : String
  confidence : ℤ
deriving DecidableEq

/-- The three partitions returned by `deduplicate_transactions` (the
`deduplication_report` counts are the lengths of these lists). -/
structure DedupResult where
  new_transactions : List IncomingTx
  exact_duplicates : List ExactDup
  fuzzy_duplicates : List FuzzyDup
deriving DecidableEq

/-- The per-transaction body of the `deduplicate_transactions` loop. -/
def dedup_step (store : List StoredTx) (acc : DedupResult)
    (txn : IncomingTx) : DedupResult :=
  let exact_matches := find_exact_duplicates store txn.account_id
    txn.transaction_date txn.amount txn.description
  if !exact_matches.isEmpty then
    { acc with exact_duplicates :=
        acc.exact_duplicates ++ [⟨txn, exact_matches, "exact"⟩] }
  else
    let fuzzy_matches := find_fuzzy_duplicates store txn.account_id
      txn.transaction_date txn.amount txn.description 3 50
    if !fuzzy_matches.isEmpty then
      let high_confidence := fuzzy_matches.filter fun p => decide (p.2 ≥ 8)
      if !high_confidence.isEmpty then
        { acc with fuzzy_duplicates := acc.fuzzy_duplicates ++
            [⟨txn, high_confidence.map Prod.fst, "fuzzy_high_confidence",
              (high_confidence.headD ("", 0)).2⟩] }
      else
        { acc with fuzzy_duplicates := acc.fuzzy_duplicates ++
            [⟨txn, fuzzy_matches.map Prod.fst, "fuzzy_low_confidence",
              (fuzzy_matches.map Prod.snd).foldl max 0⟩] }
    else
      { acc with new_transactions := acc.new_transactions ++ [txn] }

/-- Source `deduplicate_transactions` (deduplication.py): one read-then-decide
pass over the batch against the persisted store. -/
def deduplicate_transactions (store : List StoredTx)
    (transactions_data : List IncomingTx) : DedupResult :=
  transactions_data.foldl (dedup_step store) ⟨[], [], []⟩

/-- C6: for an incoming transaction with no exact duplicate, the fuzzy
candidates are exactly the stored transactions of the same account within
`±$0.50` (`50` cents) and `±3` days, scored `0.9` for
identical-after-normalization descriptions, `0.7` for (case-insensitive)
containment, `0.5` otherwise; the transaction is recorded as a
high-confidence fuzzy duplicate to skip exactly when some candidate scores
`≥ 0.8` (`8` tenths, so exactly `0.8` is skipped), is flagged
`fuzzy_low_confidence` otherwise (when candidates exist), and in neither
case is it inserted as new. -/
theorem C6_fuzzy_duplicate_window_confidence_threshold
    (store : List StoredTx) (tx : IncomingTx)
    (hexact : find_exact_duplicates store tx.account_id tx.transaction_date
      tx.amount tx.description = []) :
    (∀ t ∈ store,
      (t.account_id = tx.account_id ∧
        tx.transaction_date - 3 ≤ t.transaction_date ∧
        t.transaction_date ≤ tx.transaction_date + 3 ∧
        tx.amount - 50 ≤ t.amount ∧ t.amount ≤ tx.amount + 50) →
      (t.id,
        if calculate_description_hash t.description ==
            calculate_description_hash tx.description then (9 : ℤ)
        else if pyContains (pyLower t.description) (pyLower tx.description) ||
            pyContains (pyLower tx.description) (pyLower t.description) then 7
        else 5) ∈
        find_fuzzy_duplicates store tx.account_id tx.transaction_date
          tx.amount tx.description 3 50) ∧
    (∀ p ∈ find_fuzzy_duplicates store tx.account_id tx.transaction_date
        tx.amount tx.description 3 50,
      ∃ t ∈ store,
        (t.account_id = tx.account_id ∧
          tx.transaction_date - 3 ≤ t.transaction_date ∧
          t.transaction_date ≤ tx.transaction_date + 3 ∧
          tx.amount - 50 ≤ t.amount ∧ t.amount ≤ tx.amount + 50) ∧
        p = (t.id,
          if calculate_description_hash t.description ==
              calculate_description_hash tx.description then (9 : ℤ)
          else if pyContains (pyLower t.description) (pyLower tx.description) ||
              pyContains (pyLower tx.description) (pyLower t.description) then 7
          else 5)) ∧
    ((∃ p ∈ find_fuzzy_duplicates store tx.account_id tx.transaction_date
        tx.amount tx.description 3 50, p.2 ≥ 8) →
      (deduplicate_transactions store [tx]).fuzzy_duplicates.map
          (fun f => f.match_type) = ["fuzzy_high_confidence"] ∧
        (deduplicate_transactions store [tx]).new_transactions = []) ∧
    ((find_fuzzy_duplicates store tx.account_id tx.transaction_date
        tx.amount tx.description 3 50 ≠ [] ∧
      ∀ p ∈ find_fuzzy_duplicates store tx.account_id tx.transaction_date
        tx.amount tx.description 3 50, p.2 < 8) →
      (deduplicate_transactions store [tx]).fuzzy_duplicates.map
          (fun f => f.match_type) = ["fuzzy_low_confidence"] ∧
        (deduplicate_transactions store [tx]).new_transactions = []) ∧
    (find_fuzzy_duplicates store tx.account_id tx.transaction_date
        tx.amount tx.description 3 50 = [] →
      (deduplicate_transactions store [tx]).new_transactions = [tx]) := by
  refine ⟨?_, ?_, ?_, ?_, ?_⟩
  · intro t ht hgate
    unfold find_fuzzy_duplicates
    simp only [List.mem_map, List.mem_filter]
    refine ⟨t, ⟨ht, ?_⟩, rfl⟩
    simp only [Bool.and_eq_true, beq_iff_eq, decide_eq_true_eq]
    exact ⟨⟨⟨⟨hgate.1, hgate.2.1⟩, hgate.2.2.1⟩, hgate.2.2.2.1⟩, hgate.2.2.2.2⟩
  · intro p hp
    unfold find_fuzzy_duplicates at hp
    simp only [List.mem_map, List.mem_filter] at hp
    obtain ⟨t, ⟨ht, hpred⟩, hpeq⟩ := hp
    simp only [Bool.and_eq_true, beq_iff_eq, decide_eq_true_eq] at hpred
    obtain ⟨⟨⟨⟨h1, h2⟩, h3⟩, h4⟩, h5⟩ := hpred
    exact ⟨t, ht, ⟨h1, h2, h3, h4, h5⟩, hpeq.symm⟩
  · intro ⟨p, hp, hp8⟩
    have hfz : find_fuzzy_duplicates store tx.account_id tx.transaction_date
        tx.amount tx.description 3 50 ≠ [] := by
      intro hnil
      rw [hnil] at hp
      exact (List.not_mem_nil p) hp
    have hhigh : (find_fuzzy_duplicates store tx.account_id
        tx.transaction_date tx.amount tx.description 3 50).filter
          (fun q => decide (q.2 ≥ 8)) ≠ [] := by
      intro hnil
      rw [List.filter_eq_nil_iff] at hnil
      exact hnil p hp (by simp [hp8])
    simp [deduplicate_transactions, dedup_step, hexact, hfz, hhigh]
  · intro ⟨hfz, hlow⟩
    have hhigh : (find_fuzzy_duplicates store tx.account_id
        tx.transaction_date tx.amount tx.description 3 50).filter
          (fun q => decide (q.2 ≥ 8)) = [] := by
      rw [List.filter_eq_nil_iff]
      intro q hq
      simp only [decide_eq_true_eq]
      exact not_le.mpr (hlow q hq)
    simp [deduplicate_transactions, dedup_step, hexact, hfz, hhigh]
  · intro hfz
    simp [deduplicate_transactions, dedup_step, hexact, hfz]

/-- Witness for C6: a stored transaction one day and `$0.25` away with an
unrelated description is a `0.5`-confidence candidate, so the incoming
transaction is flagged `fuzzy_low_confidence` and not inserted. -/
theorem C6_fuzzy_duplicate_window_confidence_threshold_witness :
    ((⟨"t1", "acct1", 0, -500, "Coffee Shop Downtown"⟩ : StoredTx) ∈
      [(⟨"t1", "acct1", 0, -500, "Coffee Shop Downtown"⟩ : StoredTx)] ∧
      ("Coffee Shop Downtown" = "Coffee Shop Downtown")) ∧
    (deduplicate_transactions
        [⟨"t1", "acct1", 0, -500, "Coffee Shop Downtown"⟩]
        [⟨"acct1", 1, -525, "GROCERY MART"⟩]).fuzzy_duplicates.map
          (fun f => f.match_type) = ["fuzzy_low_confidence"] ∧
    (deduplicate_transactions
        [⟨"t1", "acct1", 0, -500, "Coffee Shop Downtown"⟩]
        [⟨"acct1", 1, -525, "GROCERY MART"⟩]).new_transactions = [] :=
  ⟨⟨List.mem_singleton.mpr rfl, rfl⟩,
   (C6_fuzzy_duplicate_window_confidence_threshold
      [⟨"t1", "acct1", 0, -500, "Coffee Shop Downtown"⟩]
      ⟨"acct1", 1, -525, "GROCERY MART"⟩ (by decide)).2.2.2.1
     ⟨by decide, by decide⟩⟩

/-- C7 (code bug): the claim — and the spec — require the exact-duplicate
test to hash *both* descriptions after lowercasing and whitespace collapse,
but `find_exact_duplicates` compares `md5` of the *raw stored* description
(`func.md5(TransactionModel.description)`) against the hash of the
*normalized incoming* one.  At the failing input — a stored transaction
textually identical to the incoming one, description `"COFFEE SHOP"`,
same account, date and amount — the claim's criterion holds (both
normalize to `"coffee shop"`, equal hashes) yet the code finds no
duplicate, because `md5 "COFFEE SHOP" ≠ md5 "coffee shop"`.  The detection
only fires when the stored description already equals the normalized
(lowercased) form. -/
theorem C7_exact_duplicate_normalization_bug :
    calculate_description_hash "COFFEE SHOP" =
      calculate_description_hash "COFFEE SHOP" ∧
    md5 "COFFEE SHOP" ≠ calculate_description_hash "COFFEE SHOP" ∧
    find_exact_duplicates [⟨"t1", "acct1", 0, -300, "COFFEE SHOP"⟩]
      "acct1" 0 (-300) "COFFEE SHOP" = [] ∧
    find_exact_duplicates [⟨"t1", "acct1", 0, -300, "coffee shop"⟩]
      "acct1" 0 (-300) "COFFEE SHOP" = ["t1"] :=
  ⟨rfl, by decide, by decide, by decide⟩

end Etl
